import Mathlib

/-!
Simulated ONU adapter: start-up and shutdown orchestration.

A shallow embedding of `cmd/simulated_onu/main.go`.

* Go `error` values are identified by their message; `none` is `nil`.
* Calls into the collaborators (k/v store, kafka client, inter-container proxy,
  core proxy, adapter core, probe) are recorded, in program order, as a list of
  `Event`s; what such a call returns is read from an `Env`.
* The two `for` loops have no bound of their own: they are run for a given number
  of iterations (`fuel`) and report `LoopOutcome.retrying` when that many
  iterations have all ended in the back-off sleep.
* Go `int` is taken at its width on 64-bit targets: `count += 1` wraps round at
  `2^63` (`wrapInt`).
* The buffered channel `exitChannel` is the list of the values it holds; a send on
  the full buffer does not complete, as the package never receives from it.
* `log.Fatal` / `log.Fatalw` write the message and terminate the process
  (`Event.logFatal`). A message logged because a call returned an error is
  recorded as `Event.log`; the progress messages (`log.Info`, `log.Debugw`, ...)
  are left out of the trace.
-/

namespace SimulatedOnu

/-! ## Go values -/

/-- Go `error`, identified by its message. -/
abbrev GoError := String

/-- Smallest value of a Go `int` (64 bits). -/
def minInt : Int := -9223372036854775808

/-- Largest value of a Go `int` (64 bits). -/
def maxInt : Int := 9223372036854775807

/-- The value of an integer expression once stored in a Go `int`: reduced modulo
`2^64` into `[minInt, maxInt]`. -/
def wrapInt (x : Int) : Int := (x + 9223372036854775808) % 18446744073709551616 - 9223372036854775808

/-- Status values of `probe.ServiceStatus`. -/
inductive ServiceStatus
  | Unknown | Preparing | Prepared | Running | Stopped | Failed | NotReady
  deriving DecidableEq, Repr

/-- The `voltha.Adapter` message, with the fields `registerWithCore` fills in. -/
structure VolthaAdapter where
  Id : String
  Vendor : String
  Version : String
  Type_ : String
  CurrentReplica : Int
  TotalReplicas : Int
  Endpoint : String
  deriving DecidableEq, Repr

/-- The `voltha.DeviceType` message, with the fields `registerWithCore` fills in. -/
structure DeviceType where
  Id : String
  Adapter : String
  deriving DecidableEq, Repr

/-- Calls into the collaborators, as they appear in a run. -/
inductive Event
  | registerService (names : List String)
  | updateStatus (name : String) (status : ServiceStatus)
  | newConsulClient (address : String) (timeout : Int)
  | newEtcdClient (address : String) (timeout : Int)
  | newSaramaClient (host : String) (port : Int)
  | newInterContainerProxy (host : String) (port : Int) (defaultTopic : String)
  | kipStart
  | sleep (seconds : Nat)
  | newCoreProxy (topic : String) (coreTopic : String)
  | simulatedONUStart
  | subscribe (topic : String) (coreInstanceId : String)
  | registerAdapter (desc : VolthaAdapter) (deviceTypes : List DeviceType)
  | exitSignal (code : Int)
  | releaseAllReservations
  | kvClose
  | log (msg : String)
  | logFatal (msg : String)
  deriving DecidableEq, Repr

/-- How a retry loop stands after the iterations it was given. -/
inductive LoopOutcome
  | retrying
  | succeeded
  | failed (err : GoError)
  deriving DecidableEq, Repr

/-- Result of running a retry loop: how it stands, the calls it made, and the
value its `count` variable holds. -/
structure LoopResult where
  outcome : LoopOutcome
  events : List Event
  count : Int
  deriving DecidableEq, Repr

/-! ## Data model -/

/-- The fields of `config.AdapterFlags` that `main.go` reads. -/
structure AdapterFlags where
  InstanceID : String
  KafkaAdapterHost : String
  KafkaAdapterPort : Int
  KVStoreType : String
  KVStoreHost : String
  KVStorePort : Int
  KVStoreTimeout : Int
  Topic : String
  CoreTopic : String
  deriving DecidableEq, Repr

/-- A live `kvstore.Client`. -/
structure KVClient where
  store : String
  address : String
  timeout : Int
  deriving DecidableEq, Repr

/-- The `kafka.Client` built by `kafka.NewSaramaClient` from its options. -/
structure KafkaClient where
  host : String
  port : Int
  producerReturnOnErrors : Bool
  producerReturnOnSuccess : Bool
  producerMaxRetries : Nat
  producerRetryBackoffMs : Nat
  deriving DecidableEq, Repr

/-- The `kafka.InterContainerProxy` built by `kafka.NewInterContainerProxy`. -/
structure InterContainerProxy where
  host : String
  port : Int
  msgClient : Option KafkaClient
  defaultTopic : String
  deriving DecidableEq, Repr

/-- The `com.CoreProxy` built by `com.NewCoreProxy`. -/
structure CoreProxy where
  kip : Option InterContainerProxy
  adapterTopic : String
  coreTopic : String
  deriving DecidableEq, Repr

/-- The `ac.SimulatedONU` built by `ac.NewSimulatedONU`. -/
structure SimulatedONU where
  kip : Option InterContainerProxy
  coreProxy : Option CoreProxy
  deriving DecidableEq, Repr

/-- The `adapter` struct (lines 40-51). A `nil` pointer or interface is `none`;
`kvClient` holds what `setKVClient` stores, `nil` or a live client.
`exitChannel` is the content of the buffered channel, oldest value first;
`receiverChannels` holds no channel in any run and keeps only its length. -/
structure Adapter where
  instanceId : String
  config : AdapterFlags
  iAdapter : Option SimulatedONU
  kafkaClient : Option KafkaClient
  kvClient : Option KVClient
  kip : Option InterContainerProxy
  coreProxy : Option CoreProxy
  halted : Bool
  exitChannel : List Int
  receiverChannels : Nat
  deriving DecidableEq, Repr

/-- Capacity of `exitChannel`: `make(chan int, 1)`. -/
def exitChannelCap : Nat := 1

/-- Status table of a `probe.Probe`: service name and status, one entry a name. -/
abbrev Probe := List (String × ServiceStatus)

/-- Status recorded for `name`, if any. -/
def Probe.get (p : Probe) (name : String) : Option ServiceStatus :=
  (p.find? (fun e => e.1 = name)).map (fun e => e.2)

/-- The method `Probe.UpdateStatus`: store `status` under `name`. -/
def Probe.UpdateStatus : Probe → String → ServiceStatus → Probe
  | [], name, status => [(name, status)]
  | e :: p, name, status =>
    if e.1 = name then (name, status) :: p else e :: Probe.UpdateStatus p name status

/-- The method `Probe.RegisterService`: each name not yet known is entered with
`ServiceStatusUnknown`. -/
def Probe.RegisterService (p : Probe) : List String → Probe
  | [] => p
  | name :: names =>
    match Probe.get p name with
    | some _ => Probe.RegisterService p names
    | none => Probe.RegisterService (p ++ [(name, ServiceStatus.Unknown)]) names

/-- What the code can see of a `context.Context`: the probe stored under
`probe.ProbeContextKey` (`none` when there is none), and after how many attempts of
the running retry loop the context was cancelled (`none`: it never is). -/
structure Context where
  probe : Option Probe
  cancelAfter : Option Nat
  deriving DecidableEq, Repr

/-- The method `ctx.Err()` once `k` attempts have been made. -/
def Context.Err (ctx : Context) (k : Nat) : Option GoError :=
  match ctx.cancelAfter with
  | some n => if n ≤ k then some "context canceled" else none
  | none => none

/-- What the collaborators return. The two k/v constructors give a client or an
error; `kipStart k` and `RegisterAdapter k` are the results of the `k`-th call
(from 0) of `kip.Start()` and of `coreProxy.RegisterAdapter`, neither of which is
handed the context of the caller; `simulatedONUStart` is the result of
`SimulatedONU.Start`, which is taken to make no call recorded in the trace. -/
structure Env where
  NewConsulClient : String → Int → Except GoError KVClient
  NewEtcdClient : String → Int → Except GoError KVClient
  kipStart : Nat → Option GoError
  simulatedONUStart : Option GoError
  SubscribeWithRequestHandlerInterface : Option GoError
  RegisterAdapter : Nat → Option GoError
  ReleaseAllReservations : Option GoError
  Version : String

/-- The function `probe.UpdateStatusFromContext`: a write on the probe of the
context when it carries one, nothing otherwise. -/
def UpdateStatusFromContext (probe : Option Probe) (name : String) (status : ServiceStatus) :
    Option Probe × List Event :=
  match probe with
  | some p => (some (p.UpdateStatus name status), [.updateStatus name status])
  | none => (none, [])

/-! ## Construction and the client factories -/

/-- The function `newAdapter` (lines 57-65). -/
def newAdapter (cf : AdapterFlags) : Adapter :=
  { instanceId := cf.InstanceID
    config := cf
    iAdapter := none
    kafkaClient := none
    kvClient := none
    kip := none
    coreProxy := none
    halted := false
    exitChannel := []
    receiverChannels := 0 }

/-- A value of the interface type `kvstore.Client`, as `newKVClient` returns it:
`nilInterface` is the `nil` of the last `return`; `wraps p` is the interface made of
the pointer `p` that a constructor returned, which is not `nil` even when `p` is. -/
inductive ClientValue
  | nilInterface
  | wraps (pointer : Option KVClient)
  deriving DecidableEq, Repr

/-- The live client an interface value stands for, if any. With a `nil` error the
value returned by `newKVClient` wraps the client its constructor returned. -/
def ClientValue.client : ClientValue → Option KVClient
  | .nilInterface => none
  | .wraps pointer => pointer

/-- The function `newKVClient` (lines 149-159): client, error, calls made. A
constructor returns its pointer together with a `nil` error, or a `nil` pointer
together with its error; either way the pointer comes back inside an interface. -/
def newKVClient (env : Env) (storeType : String) (address : String) (timeout : Int) :
    ClientValue × Option GoError × List Event :=
  if storeType = "consul" then
    match env.NewConsulClient address timeout with
    | .ok client => (.wraps (some client), none, [.newConsulClient address timeout])
    | .error err => (.wraps none, some err, [.newConsulClient address timeout])
  else if storeType = "etcd" then
    match env.NewEtcdClient address timeout with
    | .ok client => (.wraps (some client), none, [.newEtcdClient address timeout])
    | .error err => (.wraps none, some err, [.newEtcdClient address timeout])
  else (.nilInterface, some "unsupported-kv-store", [])

/-- The function `newKafkaClient` (lines 161-175). -/
def newKafkaClient (clientType : String) (host : String) (port : Int) :
    Option KafkaClient × Option GoError × List Event :=
  if clientType = "sarama" then
    (some { host := host, port := port, producerReturnOnErrors := true,
            producerReturnOnSuccess := true, producerMaxRetries := 6,
            producerRetryBackoffMs := 30 },
      none, [.newSaramaClient host port])
  else (none, some "unsupported-client-type", [])

/-- The function `strconv.Itoa`. -/
def Itoa (n : Int) : String := toString n

/-- The method `setKVClient` (lines 177-187): adapter afterwards, error, calls made.
With an error the field is set to `nil`, whatever interface value came with it;
without one it takes the value returned, which then wraps a live client
(`newKVClient_client`). -/
def setKVClient (env : Env) (a : Adapter) : Adapter × Option GoError × List Event :=
  let addr := a.config.KVStoreHost ++ ":" ++ Itoa a.config.KVStorePort
  let r := newKVClient env a.config.KVStoreType addr a.config.KVStoreTimeout
  match r.2.1 with
  | some err => ({ a with kvClient := none }, some err, r.2.2 ++ [.log err])
  | none => ({ a with kvClient := r.1.client }, none, r.2.2)

/-! ## The retry loops -/

/-- The `for` loop of `startInterContainerProxy` (lines 209-222). `start k` is what
the `k`-th call of `kip.Start()` returns. On a failed attempt the loop returns the
error when `retries == count`, and otherwise executes `count = +1`, which stores
the constant `1`, and sleeps two seconds. A warning is logged before the check. -/
def kipLoop (start : Nat → Option GoError) (retries : Int) : Nat → Nat → Int → LoopResult
  | 0, _, count => ⟨.retrying, [], count⟩
  | fuel + 1, k, count =>
    match start k with
    | some err =>
      if retries = count then
        ⟨.failed err, [.kipStart, .log "error-starting-messaging-proxy"], count⟩
      else
        let r := kipLoop start retries fuel (k + 1) 1
        ⟨r.outcome,
          .kipStart :: .log "error-starting-messaging-proxy" :: .sleep 2 :: r.events, r.count⟩
    | none => ⟨.succeeded, [.kipStart], count⟩

/-- The `for` loop of `registerWithCore` (lines 269-282). `register k` is what the
`k`-th call of `coreProxy.RegisterAdapter` returns. On a failed attempt the loop
returns the error when `retries == count`, and otherwise executes `count += 1`
and sleeps two seconds. A warning is logged before the check. -/
def registerLoop (register : Nat → Option GoError) (desc : VolthaAdapter)
    (deviceTypes : List DeviceType) (retries : Int) : Nat → Nat → Int → LoopResult
  | 0, _, count => ⟨.retrying, [], count⟩
  | fuel + 1, k, count =>
    match register k with
    | some err =>
      if retries = count then
        ⟨.failed err,
          [.registerAdapter desc deviceTypes, .log "registering-with-core-failed"], count⟩
      else
        let r := registerLoop register desc deviceTypes retries fuel (k + 1) (wrapInt (count + 1))
        ⟨r.outcome,
          .registerAdapter desc deviceTypes :: .log "registering-with-core-failed" :: .sleep 2
            :: r.events, r.count⟩
    | none => ⟨.succeeded, [.registerAdapter desc deviceTypes], count⟩

/-! ## The steps of `start` -/

/-- Result of `startInterContainerProxy`: how its loop stands, the proxy returned
(`nil` with an error), the probe of the context afterwards, the calls made and
the final value of `count`. -/
structure ProxyResult where
  outcome : LoopOutcome
  kip : Option InterContainerProxy
  probe : Option Probe
  events : List Event
  count : Int
  deriving DecidableEq, Repr

/-- The method `startInterContainerProxy` (lines 200-227), its loop run for at most
`fuel` iterations. -/
def startInterContainerProxy (env : Env) (ctx : Context) (a : Adapter) (retries : Int)
    (fuel : Nat) : ProxyResult :=
  let kip : InterContainerProxy :=
    { host := a.config.KafkaAdapterHost, port := a.config.KafkaAdapterPort,
      msgClient := a.kafkaClient, defaultTopic := a.config.Topic }
  let made : Event :=
    .newInterContainerProxy a.config.KafkaAdapterHost a.config.KafkaAdapterPort a.config.Topic
  let r := kipLoop env.kipStart retries fuel 0 0
  match r.outcome with
  | .succeeded =>
    let u := UpdateStatusFromContext ctx.probe "container-proxy" .Running
    ⟨.succeeded, some kip, u.1, made :: r.events ++ u.2, r.count⟩
  | .failed err => ⟨.failed err, none, ctx.probe, made :: r.events, r.count⟩
  | .retrying => ⟨.retrying, none, ctx.probe, made :: r.events, r.count⟩

/-- The method `startSimulatedONU` (lines 229-241): the adapter core returned, the
message of `log.Fatalw` when `Start` fails, and the calls made. It builds the core
on `a.kip`, not on its `kip` argument. -/
def startSimulatedONU (env : Env) (a : Adapter) (_kip : Option InterContainerProxy)
    (cp : Option CoreProxy) : Option SimulatedONU × Option String × List Event :=
  let sOLT : SimulatedONU := { kip := a.kip, coreProxy := cp }
  match env.simulatedONUStart with
  | some _ =>
    (none, some "error-starting-messaging-proxy",
      [.simulatedONUStart, .logFatal "error-starting-messaging-proxy"])
  | none => (some sOLT, none, [.simulatedONUStart])

/-- The method `setupRequestHandler` (lines 243-254): error, probe afterwards,
calls made. -/
def setupRequestHandler (env : Env) (ctx : Context) (a : Adapter) (coreInstanceId : String)
    (_iadapter : Option SimulatedONU) (_coreProxy : Option CoreProxy) :
    Option GoError × Option Probe × List Event :=
  match env.SubscribeWithRequestHandlerInterface with
  | some err =>
    (some err, ctx.probe,
      [.subscribe a.config.Topic coreInstanceId, .log "adaptercore-request-handler-setup-failed"])
  | none =>
    let u := UpdateStatusFromContext ctx.probe "core-request-handler" .Running
    (none, u.1, .subscribe a.config.Topic coreInstanceId :: u.2)

/-- The `adapterDescription` built in `registerWithCore` (lines 257-266). -/
def adapterDescription (env : Env) : VolthaAdapter :=
  { Id := "simulated_onu_1"
    Vendor := "Open Networking Foundation"
    Version := env.Version
    Type_ := "simulated_onu"
    CurrentReplica := 1
    TotalReplicas := 1
    Endpoint := "simulated_onu" }

/-- The `types` built in `registerWithCore` (line 267). -/
def deviceTypes : List DeviceType := [{ Id := "simulated_onu", Adapter := "simulated_onu" }]

/-- Result of `registerWithCore`: how its loop stands (`succeeded` is the `nil`
return, `failed err` the return of `err`), the probe of the context afterwards,
the calls made and the final value of `count`. -/
structure RegisterResult where
  outcome : LoopOutcome
  probe : Option Probe
  events : List Event
  count : Int
  deriving DecidableEq, Repr

/-- The method `registerWithCore` (lines 255-286), its loop run for at most `fuel`
iterations. Nothing of the adapter is read but `coreProxy`, the receiver of
`RegisterAdapter`, whose results are those of `env`. -/
def registerWithCore (env : Env) (ctx : Context) (_a : Adapter) (retries : Int) (fuel : Nat) :
    RegisterResult :=
  let r := registerLoop env.RegisterAdapter (adapterDescription env) deviceTypes retries fuel 0 0
  match r.outcome with
  | .succeeded =>
    let u := UpdateStatusFromContext ctx.probe "register-with-core" .Running
    ⟨.succeeded, u.1, r.events ++ u.2, r.count⟩
  | .failed err => ⟨.failed err, ctx.probe, r.events, r.count⟩
  | .retrying => ⟨.retrying, ctx.probe, r.events, r.count⟩

/-! ## `start` and `stop` -/

/-- The names `start` registers with the probe (lines 76-82). -/
def serviceNames : List String :=
  ["message-bus", "kv-store", "container-proxy", "core-request-handler", "register-with-core"]

/-- How a run of `start` stands: it returned, it ended the process in `log.Fatal`,
or one of its retry loops is still retrying. -/
inductive RunStatus
  | returned
  | fatal (msg : String)
  | retrying
  deriving DecidableEq, Repr

/-- Result of `start`: how it stands, the adapter and the probe of the context
afterwards, and the calls made. -/
structure StartResult where
  status : RunStatus
  adapter : Adapter
  probe : Option Probe
  events : List Event
  deriving DecidableEq, Repr

/-- The statement `if p != nil { p.UpdateStatus(name, probe.ServiceStatusRunning) }`
of `start` (lines 92-94 and 101-103). -/
def updateRunning (p : Option Probe) (name : String) : Option Probe × List Event :=
  match p with
  | some q => (some (q.UpdateStatus name .Running), [.updateStatus name .Running])
  | none => (none, [])

/-- The method `start` (lines 67-127), each of its two retry loops run for at most
`fuel` iterations. -/
def start (env : Env) (ctx : Context) (a : Adapter) (fuel : Nat) : StartResult :=
  -- lines 72-84
  let p0 := ctx.probe.map (fun p => p.RegisterService serviceNames)
  let e0 : List Event := match ctx.probe with
    | some _ => [.registerService serviceNames]
    | none => []
  -- lines 86-94
  let kv := setKVClient env a
  match kv.2.1 with
  | some _ =>
    ⟨.fatal "error-setting-kv-client", kv.1, p0,
      e0 ++ kv.2.2 ++ [.logFatal "error-setting-kv-client"]⟩
  | none =>
  let a1 := kv.1
  let u1 := updateRunning p0 "kv-store"
  let e1 := e0 ++ kv.2.2 ++ u1.2
  -- lines 96-103
  let kc := newKafkaClient "sarama" a1.config.KafkaAdapterHost a1.config.KafkaAdapterPort
  let a2 := { a1 with kafkaClient := kc.1 }
  match kc.2.1 with
  | some _ =>
    ⟨.fatal "Unsupported-common-client", a2, u1.1,
      e1 ++ kc.2.2 ++ [.logFatal "Unsupported-common-client"]⟩
  | none =>
  let u2 := updateRunning u1.1 "message-bus"
  let e2 := e1 ++ kc.2.2 ++ u2.2
  -- lines 105-108
  let px := startInterContainerProxy env { ctx with probe := u2.1 } a2 (-1) fuel
  match px.outcome with
  | .retrying => ⟨.retrying, a2, px.probe, e2 ++ px.events⟩
  | .failed _ =>
    ⟨.fatal "error-starting-inter-container-proxy", { a2 with kip := px.kip }, px.probe,
      e2 ++ px.events ++ [.logFatal "error-starting-inter-container-proxy"]⟩
  | .succeeded =>
  let a3 := { a2 with kip := px.kip }
  -- lines 110-111
  let cp : CoreProxy :=
    { kip := a3.kip, adapterTopic := a3.config.Topic, coreTopic := a3.config.CoreTopic }
  let a4 := { a3 with coreProxy := some cp }
  let e4 := e2 ++ px.events ++ [.newCoreProxy a3.config.Topic a3.config.CoreTopic]
  -- lines 113-116
  let onu := startSimulatedONU env a4 a4.kip a4.coreProxy
  match onu.2.1 with
  | some msg => ⟨.fatal msg, a4, px.probe, e4 ++ onu.2.2⟩
  | none =>
  let a5 := { a4 with iAdapter := onu.1 }
  let e5 := e4 ++ onu.2.2
  -- lines 118-121
  let rh := setupRequestHandler env { ctx with probe := px.probe } a5 a5.instanceId a5.iAdapter
    a5.coreProxy
  match rh.1 with
  | some _ =>
    ⟨.fatal "error-setting-core-request-handler", a5, rh.2.1,
      e5 ++ rh.2.2 ++ [.logFatal "error-setting-core-request-handler"]⟩
  | none =>
  -- lines 123-126
  let rg := registerWithCore env { ctx with probe := rh.2.1 } a5 (-1) fuel
  match rg.outcome with
  | .retrying => ⟨.retrying, a5, rg.probe, e5 ++ rh.2.2 ++ rg.events⟩
  | .failed _ =>
    ⟨.fatal "error-registering-with-core", a5, rg.probe,
      e5 ++ rh.2.2 ++ rg.events ++ [.logFatal "error-registering-with-core"]⟩
  | .succeeded => ⟨.returned, a5, rg.probe, e5 ++ rh.2.2 ++ rg.events⟩

/-- Result of `stop`: whether the call returned (`false`: it is blocked for ever in
the send on the full `exitChannel`), the adapter afterwards and the calls made. -/
structure StopResult where
  returned : Bool
  adapter : Adapter
  events : List Event
  deriving DecidableEq, Repr

/-- The method `stop` (lines 129-147). The send `rw.exitChannel <- 0` goes through
when the buffer has room; no statement of the package receives from that channel,
so on a full buffer the send, and with it `stop`, never completes. -/
def stop (env : Env) (rw : Adapter) : StopResult :=
  let rw1 := { rw with halted := true }
  if rw1.exitChannel.length < exitChannelCap then
    let rw2 := { rw1 with exitChannel := rw1.exitChannel ++ [0] }
    match rw2.kvClient with
    | some _ =>
      match env.ReleaseAllReservations with
      | some _ =>
        ⟨true, rw2, [.exitSignal 0, .releaseAllReservations,
          .log "fail-to-release-all-reservations", .kvClose]⟩
      | none => ⟨true, rw2, [.exitSignal 0, .releaseAllReservations, .kvClose]⟩
    | none => ⟨true, rw2, [.exitSignal 0]⟩
  else ⟨false, rw1, []⟩

/-! ## Reading a trace -/

/-- Number of attempts in a trace: calls of `kip.Start()` and of `RegisterAdapter`. -/
def attempts : List Event → Nat
  | [] => 0
  | .kipStart :: es => attempts es + 1
  | .registerAdapter _ _ :: es => attempts es + 1
  | _ :: es => attempts es

/-- Number of back-off sleeps in a trace. -/
def sleeps : List Event → Nat
  | [] => 0
  | .sleep _ :: es => sleeps es + 1
  | _ :: es => sleeps es

/-- The status writes of a trace, in order. -/
def statusWrites : List Event → List (String × ServiceStatus)
  | [] => []
  | .updateStatus name status :: es => (name, status) :: statusWrites es
  | _ :: es => statusWrites es

/-- The cleanup calls of a trace, in order: the exit signal, `ReleaseAllReservations`
and `Close`. -/
def cleanupCalls : List Event → List Event
  | [] => []
  | .exitSignal c :: es => .exitSignal c :: cleanupCalls es
  | .releaseAllReservations :: es => .releaseAllReservations :: cleanupCalls es
  | .kvClose :: es => .kvClose :: cleanupCalls es
  | _ :: es => cleanupCalls es

/-- Value of `count` in `startInterContainerProxy` at the check of attempt `j` (from
0) when the loop was entered with `count`: the statement `count = +1` has stored
`1` before every check but the first. -/
def kipCount (count : Int) (j : Nat) : Int := if j = 0 then count else 1

/-- Number of failed attempts after which the `count` of `registerWithCore`, at
`0` on entry and stepped by `count += 1`, first equals `retries`: `retries` itself
when it is not negative, `2^64 + retries` (past the wrap of the 64-bit counter)
when it is. -/
def exhaustionPoint (retries : Int) : Nat :=
  if 0 ≤ retries then retries.toNat else (18446744073709551616 + retries).toNat

/-- The status writes of the statement `probe.UpdateStatusFromContext(ctx, name,
probe.ServiceStatusRunning)`: one when the context carries a probe. -/
def markWrites (probe : Option Probe) (name : String) : List (String × ServiceStatus) :=
  match probe with
  | some _ => [(name, .Running)]
  | none => []

/-- The probe after the status writes `ws`, made in order. -/
def replayWrites : Probe → List (String × ServiceStatus) → Probe
  | p, [] => p
  | p, (name, status) :: ws => replayWrites (p.UpdateStatus name status) ws

/-- The status writes of a run of `start` that returns, with a probe in the
context, in the order of lines 93, 102, 224, 251 and 283. -/
def runningWrites : List (String × ServiceStatus) :=
  [("kv-store", .Running), ("message-bus", .Running), ("container-proxy", .Running),
    ("core-request-handler", .Running), ("register-with-core", .Running)]

/-! ## Sample inputs -/

/-- A configuration with the k/v store kind `storeType`. -/
def sampleFlags (storeType : String) : AdapterFlags :=
  { InstanceID := "onu-7", KafkaAdapterHost := "kafka", KafkaAdapterPort := 9092,
    KVStoreType := storeType, KVStoreHost := "kv", KVStorePort := 2379, KVStoreTimeout := 5,
    Topic := "onu-topic", CoreTopic := "rwcore" }

/-- Collaborators whose k/v constructors succeed, whose `kip.Start()` and
`RegisterAdapter` fail on the calls `k` with `kipFails k` and `regFails k`, and whose
`ReleaseAllReservations` returns `release`. -/
def sampleEnv (kipFails regFails : Nat → Bool) (release : Option GoError) : Env :=
  { NewConsulClient := fun addr t => .ok ⟨"consul", addr, t⟩
    NewEtcdClient := fun addr t => .ok ⟨"etcd", addr, t⟩
    kipStart := fun k => if kipFails k then some "kafka-down" else none
    simulatedONUStart := none
    SubscribeWithRequestHandlerInterface := none
    RegisterAdapter := fun k => if regFails k then some "core-down" else none
    ReleaseAllReservations := release
    Version := "1.0" }

/-- Collaborators of which every `kip.Start()` and every `RegisterAdapter` fails. -/
def downEnv : Env := sampleEnv (fun _ => true) (fun _ => true) none

/-- Collaborators that all succeed at once. -/
def upEnv : Env := sampleEnv (fun _ => false) (fun _ => false) none

/-- Collaborators whose `kip.Start()` and `RegisterAdapter` fail twice and succeed
on the third call. -/
def flakyEnv : Env :=
  sampleEnv (fun k => decide (k < 2)) (fun k => decide (k < 2)) none

/-- Collaborators that all succeed but for `ReleaseAllReservations`, which fails. -/
def releaseFailsEnv : Env :=
  sampleEnv (fun _ => false) (fun _ => false) (some "release-failed")

/-- A context with an empty probe that is never cancelled. -/
def probeCtx : Context := { probe := some [], cancelAfter := none }

/-- A context with an empty probe, cancelled once the first attempt is made. -/
def cancelledCtx : Context := { probe := some [], cancelAfter := some 1 }

/-- The adapter once `start` has returned, all collaborators being up. -/
def startedAdapter : Adapter := (start upEnv probeCtx (newAdapter (sampleFlags "etcd")) 1).adapter

/-! ## Lemmas on integers and traces -/

/-- A value within the range of `int` is stored unchanged. -/
theorem wrapInt_of_range (x : Int) (h1 : minInt ≤ x) (h2 : x ≤ maxInt) : wrapInt x = x := by
  unfold wrapInt minInt maxInt at *; omega

/-- Wrapping an operand first does not change the wrapped sum. -/
theorem wrapInt_add (a b : Int) : wrapInt (wrapInt a + b) = wrapInt (a + b) := by
  unfold wrapInt; omega

/-- Attempts of a concatenated trace. -/
theorem attempts_append (xs ys : List Event) :
    attempts (xs ++ ys) = attempts xs + attempts ys := by
  induction xs with
  | nil => simp [attempts]
  | cons e es ih => cases e <;> simp [attempts, ih]; all_goals omega

/-- Sleeps of a concatenated trace. -/
theorem sleeps_append (xs ys : List Event) : sleeps (xs ++ ys) = sleeps xs + sleeps ys := by
  induction xs with
  | nil => simp [sleeps]
  | cons e es ih => cases e <;> simp [sleeps, ih]; omega

/-- Status writes of a concatenated trace. -/
theorem statusWrites_append (xs ys : List Event) :
    statusWrites (xs ++ ys) = statusWrites xs ++ statusWrites ys := by
  induction xs with
  | nil => simp [statusWrites]
  | cons e es ih => cases e <;> simp [statusWrites, ih]

/-- After `exhaustionPoint retries` increments from `0` the counter equals `retries`. -/
theorem exhaustionPoint_wrap (retries : Int) (h1 : minInt ≤ retries) (h2 : retries ≤ maxInt) :
    wrapInt (0 + (exhaustionPoint retries : Nat)) = retries := by
  unfold wrapInt exhaustionPoint minInt maxInt at *
  split <;> omega

/-- Before `exhaustionPoint retries` increments from `0` the counter differs from `retries`. -/
theorem exhaustionPoint_ne (retries : Int) (h1 : minInt ≤ retries) (h2 : retries ≤ maxInt)
    (j : Nat) (hj : j < exhaustionPoint retries) : retries ≠ wrapInt (0 + (j : Nat)) := by
  unfold wrapInt exhaustionPoint minInt maxInt at *
  split at hj <;> omega

/-! ## Lemmas on the probe -/

/-- A status just written is the one read back. -/
theorem Probe.get_UpdateStatus (p : Probe) (name : String) (status : ServiceStatus) :
    Probe.get (Probe.UpdateStatus p name status) name = some status := by
  induction p with
  | nil => simp [Probe.UpdateStatus, Probe.get]
  | cons e p ih =>
    simp only [Probe.UpdateStatus]
    by_cases h : e.1 = name
    · simp [h, Probe.get]
    · simp only [h, if_false]
      simp only [Probe.get, List.find?, h, decide_False] at ih ⊢
      exact ih

/-- A write under one name leaves the other names as they are. -/
theorem Probe.get_UpdateStatus_of_ne (p : Probe) (name n : String) (status : ServiceStatus)
    (h : name ≠ n) : Probe.get (Probe.UpdateStatus p n status) name = Probe.get p name := by
  induction p with
  | nil =>
    have h2 : ¬ n = name := fun e => h e.symm
    simp [Probe.UpdateStatus, Probe.get, h2]
  | cons e p ih =>
    simp only [Probe.UpdateStatus]
    by_cases he : e.1 = n
    · have h2 : ¬ n = name := fun e => h e.symm
      have h3 : ¬ e.1 = name := fun e2 => h (e2.symm.trans he)
      simp [he, Probe.get, List.find?, h2, h3]
    · simp only [he, if_false]
      by_cases h3 : e.1 = name
      · simp [Probe.get, List.find?, h3]
      · simp only [Probe.get, List.find?, h3, decide_False] at ih ⊢
        exact ih

/-- A write of `Running` leaves every `Running` entry `Running`. -/
theorem Probe.get_UpdateStatus_running (p : Probe) (name n : String)
    (h : Probe.get p name = some .Running) :
    Probe.get (Probe.UpdateStatus p n .Running) name = some .Running := by
  by_cases hn : name = n
  · subst hn; exact Probe.get_UpdateStatus p name .Running
  · rw [Probe.get_UpdateStatus_of_ne p name n .Running hn]; exact h

/-- An entry of a table is still read after entries are appended. -/
theorem Probe.get_append (p q : Probe) (name : String) (s : ServiceStatus)
    (h : Probe.get p name = some s) : Probe.get (p ++ q) name = some s := by
  induction p with
  | nil => simp [Probe.get] at h
  | cons e p ih =>
    by_cases h3 : e.1 = name
    · simpa [Probe.get, List.find?, h3] using h
    · simp only [Probe.get, List.find?, h3, decide_False, List.cons_append] at ih h ⊢
      exact ih h

/-- The method `RegisterService` leaves the entries it finds as they are. -/
theorem Probe.get_RegisterService (names : List String) :
    ∀ (p : Probe) (name : String) (s : ServiceStatus),
      Probe.get p name = some s → Probe.get (Probe.RegisterService p names) name = some s := by
  induction names with
  | nil => intro p name s h; simpa [Probe.RegisterService] using h
  | cons n names ih =>
    intro p name s h
    simp only [Probe.RegisterService]
    split
    · exact ih p name s h
    · exact ih _ name s (Probe.get_append p _ name s h)

/-- Writes that all set `Running` leave every `Running` entry `Running`. -/
theorem replayWrites_running (ws : List (String × ServiceStatus)) :
    ∀ (p : Probe) (name : String), (∀ w ∈ ws, w.2 = ServiceStatus.Running) →
      Probe.get p name = some .Running → Probe.get (replayWrites p ws) name = some .Running := by
  induction ws with
  | nil => intro p name _ h; simpa [replayWrites] using h
  | cons w ws ih =>
    intro p name hall h
    obtain ⟨n, s⟩ := w
    have hs : s = .Running := hall (n, s) (by simp)
    subst hs
    simp only [replayWrites]
    exact ih _ name (fun w hw => hall w (by simp [hw])) (Probe.get_UpdateStatus_running p name n h)

/-! ## Lemmas on the retry loops -/

/-- While the attempts `k, ..., k + n - 1` fail and none of their checks finds
`retries == count`, `registerLoop` goes through `n` rounds of attempt and sleep and
continues from attempt `k + n` with the counter stepped `n` times. -/
theorem registerLoop_skip (register : Nat → Option GoError) (desc : VolthaAdapter)
    (types : List DeviceType) (retries : Int) :
    ∀ (n fuel k : Nat) (count : Int),
      (∀ j, j < n → register (k + j) ≠ none) →
      (∀ j : Nat, j < n → retries ≠ wrapInt (count + j)) →
      wrapInt count = count →
      let r := registerLoop register desc types retries (n + fuel) k count
      let t := registerLoop register desc types retries fuel (k + n) (wrapInt (count + n))
      r.outcome = t.outcome ∧ attempts r.events = n + attempts t.events ∧
        sleeps r.events = n + sleeps t.events ∧ r.count = t.count := by
  intro n
  induction n with
  | zero =>
    intro fuel k count _ _ hc
    simp [hc]
  | succ n ih =>
    intro fuel k count hfail hne hc
    have h0 := hfail 0 (by omega)
    have hn0 := hne 0 (by omega)
    simp only [Nat.cast_zero, add_zero, hc] at hn0 h0
    obtain ⟨err, herr⟩ := Option.ne_none_iff_exists'.mp h0
    have hstep := ih fuel (k + 1) (wrapInt (count + 1))
      (fun j hj => by have := hfail (j + 1) (by omega); rwa [show k + 1 + j = k + (j + 1) by omega])
      (fun j hj => by
        have := hne (j + 1) (by omega)
        rw [wrapInt_add]
        rwa [show count + 1 + (j : Int) = count + ((j + 1 : Nat) : Int) by push_cast; ring])
      (by unfold wrapInt; omega)
    rw [show n + 1 + fuel = (n + fuel) + 1 by omega]
    simp only [registerLoop, herr, hn0, if_false]
    simp only [attempts, sleeps]
    rw [wrapInt_add, show k + 1 + n = k + (n + 1) by omega,
      show count + 1 + (n : Int) = count + ((n + 1 : Nat) : Int) by push_cast; ring] at hstep
    obtain ⟨h1, h2, h3, h4⟩ := hstep
    refine ⟨h1, ?_, ?_, h4⟩ <;> omega

/-- While the attempts `k, ..., k + n - 1` fail and none of their checks finds
`retries == count`, `kipLoop` goes through `n` rounds of attempt and sleep and
continues from attempt `k + n` with the counter at `kipCount count n`. -/
theorem kipLoop_skip (start : Nat → Option GoError) (retries : Int) :
    ∀ (n fuel k : Nat) (count : Int),
      (∀ j, j < n → start (k + j) ≠ none) →
      (∀ j : Nat, j < n → retries ≠ kipCount count j) →
      let r := kipLoop start retries (n + fuel) k count
      let t := kipLoop start retries fuel (k + n) (kipCount count n)
      r.outcome = t.outcome ∧ attempts r.events = n + attempts t.events ∧
        sleeps r.events = n + sleeps t.events ∧ r.count = t.count := by
  intro n
  induction n with
  | zero =>
    intro fuel k count _ _
    simp [kipCount]
  | succ n ih =>
    intro fuel k count hfail hne
    have h0 := hfail 0 (by omega)
    have hn0 := hne 0 (by omega)
    simp only [add_zero, kipCount, if_true] at hn0 h0
    obtain ⟨err, herr⟩ := Option.ne_none_iff_exists'.mp h0
    have hstep := ih fuel (k + 1) 1
      (fun j hj => by have := hfail (j + 1) (by omega); rwa [show k + 1 + j = k + (j + 1) by omega])
      (fun j hj => by
        have := hne (j + 1) (by omega)
        simp only [kipCount] at this ⊢
        split <;> simp_all)
    rw [show n + 1 + fuel = (n + fuel) + 1 by omega]
    simp only [kipLoop, herr, hn0, if_false]
    simp only [attempts, sleeps]
    have hk : kipCount 1 n = kipCount count (n + 1) := by simp [kipCount]
    rw [hk, show k + 1 + n = k + (n + 1) by omega] at hstep
    obtain ⟨h1, h2, h3, h4⟩ := hstep
    refine ⟨h1, ?_, ?_, h4⟩ <;> omega

/-- While every attempt fails and the counter has not reached `retries`, `registerLoop`
is retrying, one attempt and one sleep an iteration. -/
theorem registerLoop_retrying (register : Nat → Option GoError) (desc : VolthaAdapter)
    (types : List DeviceType) (retries : Int) (h1 : minInt ≤ retries) (h2 : retries ≤ maxInt)
    (n : Nat) (hfail : ∀ j, j < n → register j ≠ none) (hn : n ≤ exhaustionPoint retries) :
    (registerLoop register desc types retries n 0 0).outcome = .retrying ∧
      attempts (registerLoop register desc types retries n 0 0).events = n ∧
      sleeps (registerLoop register desc types retries n 0 0).events = n := by
  have h := registerLoop_skip register desc types retries n 0 0 0
    (fun j hj => by simpa using hfail j hj)
    (fun j hj => exhaustionPoint_ne retries h1 h2 j (by omega))
    (by decide)
  simpa [registerLoop, attempts, sleeps] using And.intro h.1 (And.intro h.2.1 h.2.2.1)

/-- When attempt `n` (from 0) is the first to succeed, before the counter reaches
`retries`, `registerLoop` breaks out after `n + 1` attempts and `n` sleeps. -/
theorem registerLoop_succeeds (register : Nat → Option GoError) (desc : VolthaAdapter)
    (types : List DeviceType) (retries : Int) (h1 : minInt ≤ retries) (h2 : retries ≤ maxInt)
    (n fuel : Nat) (hfail : ∀ j, j < n → register j ≠ none) (hok : register n = none)
    (hn : n ≤ exhaustionPoint retries) (hfuel : n < fuel) :
    (registerLoop register desc types retries fuel 0 0).outcome = .succeeded ∧
      attempts (registerLoop register desc types retries fuel 0 0).events = n + 1 ∧
      sleeps (registerLoop register desc types retries fuel 0 0).events = n := by
  obtain ⟨f, rfl⟩ : ∃ f, fuel = n + (f + 1) := ⟨fuel - n - 1, by omega⟩
  have h := registerLoop_skip register desc types retries n (f + 1) 0 0
    (fun j hj => by simpa using hfail j hj)
    (fun j hj => exhaustionPoint_ne retries h1 h2 j (by omega))
    (by decide)
  simpa [registerLoop, hok, attempts, sleeps] using And.intro h.1 (And.intro h.2.1 h.2.2.1)

/-- When the attempts fail up to the one at which the counter equals `retries`,
`registerLoop` returns the error of that attempt. -/
theorem registerLoop_exhausts (register : Nat → Option GoError) (desc : VolthaAdapter)
    (types : List DeviceType) (retries : Int) (h1 : minInt ≤ retries) (h2 : retries ≤ maxInt)
    (fuel : Nat) (err : GoError) (hfail : ∀ j, j < exhaustionPoint retries → register j ≠ none)
    (hlast : register (exhaustionPoint retries) = some err)
    (hfuel : exhaustionPoint retries < fuel) :
    (registerLoop register desc types retries fuel 0 0).outcome = .failed err ∧
      attempts (registerLoop register desc types retries fuel 0 0).events
        = exhaustionPoint retries + 1 ∧
      sleeps (registerLoop register desc types retries fuel 0 0).events
        = exhaustionPoint retries ∧
      (registerLoop register desc types retries fuel 0 0).count = retries := by
  obtain ⟨f, rfl⟩ : ∃ f, fuel = exhaustionPoint retries + (f + 1) :=
    ⟨fuel - exhaustionPoint retries - 1, by omega⟩
  have h := registerLoop_skip register desc types retries (exhaustionPoint retries) (f + 1) 0 0
    (fun j hj => by simpa using hfail j hj)
    (fun j hj => exhaustionPoint_ne retries h1 h2 j (by omega))
    (by decide)
  have hw := exhaustionPoint_wrap retries h1 h2
  simp only [zero_add] at h hw
  simpa [registerLoop, hlast, hw, attempts, sleeps] using h

/-- While every attempt fails and `retries` is neither the `0` of the first check nor
the `1` of the later ones, `kipLoop` is retrying, one attempt and one sleep an
iteration. -/
theorem kipLoop_retrying (start : Nat → Option GoError) (retries : Int) (n : Nat)
    (hfail : ∀ j, j < n → start j ≠ none) (h0 : retries ≠ 0 ∨ n = 0)
    (h1 : retries ≠ 1 ∨ n ≤ 1) :
    (kipLoop start retries n 0 0).outcome = .retrying ∧
      attempts (kipLoop start retries n 0 0).events = n ∧
      sleeps (kipLoop start retries n 0 0).events = n ∧
      (kipLoop start retries n 0 0).count = kipCount 0 n := by
  have h := kipLoop_skip start retries n 0 0 0
    (fun j hj => by simpa using hfail j hj)
    (fun j hj => by unfold kipCount; split <;> omega)
  simpa [kipLoop, attempts, sleeps] using h

/-- When attempt `n` (from 0) is the first to succeed and no earlier check found
`retries == count`, `kipLoop` breaks out after `n + 1` attempts and `n` sleeps. -/
theorem kipLoop_succeeds (start : Nat → Option GoError) (retries : Int) (n fuel : Nat)
    (hfail : ∀ j, j < n → start j ≠ none) (hok : start n = none) (h0 : retries ≠ 0 ∨ n = 0)
    (h1 : retries ≠ 1 ∨ n ≤ 1) (hfuel : n < fuel) :
    (kipLoop start retries fuel 0 0).outcome = .succeeded ∧
      attempts (kipLoop start retries fuel 0 0).events = n + 1 ∧
      sleeps (kipLoop start retries fuel 0 0).events = n := by
  obtain ⟨f, rfl⟩ : ∃ f, fuel = n + (f + 1) := ⟨fuel - n - 1, by omega⟩
  have h := kipLoop_skip start retries n (f + 1) 0 0
    (fun j hj => by simpa using hfail j hj)
    (fun j hj => by unfold kipCount; split <;> omega)
  simpa [kipLoop, hok, attempts, sleeps] using And.intro h.1 (And.intro h.2.1 h.2.2.1)

/-- For `retries` equal to `0` or `1`, `kipLoop` returns the error of attempt `retries`
(from 0) when the attempts up to it fail. -/
theorem kipLoop_exhausts (start : Nat → Option GoError) (retries : Int) (n fuel : Nat)
    (err : GoError) (hr : retries = (n : Int)) (hn : n ≤ 1)
    (hfail : ∀ j, j < n → start j ≠ none) (hlast : start n = some err) (hfuel : n < fuel) :
    (kipLoop start retries fuel 0 0).outcome = .failed err ∧
      attempts (kipLoop start retries fuel 0 0).events = n + 1 ∧
      sleeps (kipLoop start retries fuel 0 0).events = n := by
  obtain ⟨f, rfl⟩ : ∃ f, fuel = n + (f + 1) := ⟨fuel - n - 1, by omega⟩
  have h := kipLoop_skip start retries n (f + 1) 0 0
    (fun j hj => by simpa using hfail j hj)
    (fun j hj => by unfold kipCount; split <;> omega)
  have hc : kipCount 0 n = retries := by unfold kipCount; split <;> omega
  simp only [zero_add] at h
  simpa [kipLoop, hlast, hc, attempts, sleeps] using And.intro h.1 (And.intro h.2.1 h.2.2.1)

/-- With a negative `retries` `kipLoop` returns no error: `count` is never negative. -/
theorem kipLoop_never_fails (start : Nat → Option GoError) (retries : Int) (hr : retries < 0) :
    ∀ (fuel k : Nat) (count : Int), 0 ≤ count → ∀ err,
      (kipLoop start retries fuel k count).outcome ≠ .failed err := by
  intro fuel
  induction fuel with
  | zero => intro k count _ err; simp [kipLoop]
  | succ f ih =>
    intro k count hc err
    simp only [kipLoop]
    cases hs : start k with
    | none => simp
    | some e =>
      have hne : retries ≠ count := by omega
      simpa [hne] using ih (k + 1) 1 (by omega) err

/-- As long as no check finds `retries == count`, `registerLoop` returns no error. -/
theorem registerLoop_no_failure (register : Nat → Option GoError) (desc : VolthaAdapter)
    (types : List DeviceType) (retries : Int) :
    ∀ (fuel k : Nat) (count : Int), (∀ j : Nat, j < fuel → retries ≠ wrapInt (count + j)) →
      wrapInt count = count → ∀ err,
      (registerLoop register desc types retries fuel k count).outcome ≠ .failed err := by
  intro fuel
  induction fuel with
  | zero => intro k count _ _ err; simp [registerLoop]
  | succ f ih =>
    intro k count hne hc err
    simp only [registerLoop]
    cases hs : register k with
    | none => simp
    | some e =>
      have h0 := hne 0 (by omega)
      simp only [Nat.cast_zero, add_zero, hc] at h0
      simp only [h0, if_false]
      refine ih (k + 1) (wrapInt (count + 1)) (fun j hj => ?_) (by unfold wrapInt; omega) err
      have := hne (j + 1) (by omega)
      rw [wrapInt_add]
      rwa [show count + 1 + (j : Int) = count + ((j + 1 : Nat) : Int) by push_cast; ring]

/-- An error returned by `registerLoop` is the error of one of its attempts. -/
theorem registerLoop_error_origin (register : Nat → Option GoError) (desc : VolthaAdapter)
    (types : List DeviceType) (retries : Int) :
    ∀ (fuel k : Nat) (count : Int) (err : GoError),
      (registerLoop register desc types retries fuel k count).outcome = .failed err →
      ∃ j, register j = some err := by
  intro fuel
  induction fuel with
  | zero => intro k count err; simp [registerLoop]
  | succ f ih =>
    intro k count err
    simp only [registerLoop]
    cases hs : register k with
    | none => simp
    | some e =>
      by_cases hc : retries = count
      · simp only [hc, if_true]
        intro h
        exact ⟨k, by rw [hs]; simpa using h⟩
      · simp only [hc, if_false]
        exact ih (k + 1) _ err

/-- An error returned by `kipLoop` is the error of one of its attempts. -/
theorem kipLoop_error_origin (start : Nat → Option GoError) (retries : Int) :
    ∀ (fuel k : Nat) (count : Int) (err : GoError),
      (kipLoop start retries fuel k count).outcome = .failed err → ∃ j, start j = some err := by
  intro fuel
  induction fuel with
  | zero => intro k count err; simp [kipLoop]
  | succ f ih =>
    intro k count err
    simp only [kipLoop]
    cases hs : start k with
    | none => simp
    | some e =>
      by_cases hc : retries = count
      · simp only [hc, if_true]
        intro h
        exact ⟨k, by rw [hs]; simpa using h⟩
      · simp only [hc, if_false]
        exact ih (k + 1) _ err

/-- The loop of `registerWithCore` writes no status. -/
theorem statusWrites_registerLoop (register : Nat → Option GoError) (desc : VolthaAdapter)
    (types : List DeviceType) (retries : Int) :
    ∀ (fuel k : Nat) (count : Int),
      statusWrites (registerLoop register desc types retries fuel k count).events = [] := by
  intro fuel
  induction fuel with
  | zero => intro k count; simp [registerLoop, statusWrites]
  | succ f ih =>
    intro k count
    simp only [registerLoop]
    cases register k with
    | none => simp [statusWrites]
    | some e => by_cases hc : retries = count <;> simp [hc, statusWrites, ih]

/-- The loop of `startInterContainerProxy` writes no status. -/
theorem statusWrites_kipLoop (start : Nat → Option GoError) (retries : Int) :
    ∀ (fuel k : Nat) (count : Int),
      statusWrites (kipLoop start retries fuel k count).events = [] := by
  intro fuel
  induction fuel with
  | zero => intro k count; simp [kipLoop, statusWrites]
  | succ f ih =>
    intro k count
    simp only [kipLoop]
    cases start k with
    | none => simp [statusWrites]
    | some e => by_cases hc : retries = count <;> simp [hc, statusWrites, ih]

/-- The counter of `kipLoop` is the one it was entered with until the first sleep and
`1` from then on. -/
theorem kipLoop_count (start : Nat → Option GoError) (retries : Int) :
    ∀ (fuel k : Nat) (count : Int),
      (kipLoop start retries fuel k count).count
        = if sleeps (kipLoop start retries fuel k count).events = 0 then count else 1 := by
  intro fuel
  induction fuel with
  | zero => intro k count; simp [kipLoop, sleeps]
  | succ f ih =>
    intro k count
    simp only [kipLoop]
    cases start k with
    | none => simp [sleeps]
    | some e =>
      by_cases hc : retries = count
      · simp [hc, sleeps]
      · simp only [hc, if_false, sleeps]
        rw [ih (k + 1) 1]
        split <;> simp

/-- Every request sent by `registerLoop` carries the description and device types it was
given. -/
theorem registerLoop_payload (register : Nat → Option GoError) (desc : VolthaAdapter)
    (types : List DeviceType) (retries : Int) :
    ∀ (fuel k : Nat) (count : Int) (d : VolthaAdapter) (ts : List DeviceType),
      Event.registerAdapter d ts ∈ (registerLoop register desc types retries fuel k count).events →
      d = desc ∧ ts = types := by
  intro fuel
  induction fuel with
  | zero => intro k count d ts; simp [registerLoop]
  | succ f ih =>
    intro k count d ts
    simp only [registerLoop]
    cases register k with
    | none => simp
    | some e =>
      by_cases hc : retries = count
      · simp [hc]
      · simp only [hc, if_false, List.mem_cons]
        rintro (h | h | h | h)
        · simpa using h
        · cases h
        · cases h
        · exact ih _ _ d ts h

/-! ## Lemmas on the steps of `start` -/

/-- The result of `registerWithCore` in terms of its loop. -/
theorem registerWithCore_loop (env : Env) (ctx : Context) (a : Adapter) (retries : Int)
    (fuel : Nat) :
    (registerWithCore env ctx a retries fuel).outcome
        = (registerLoop env.RegisterAdapter (adapterDescription env) deviceTypes retries
            fuel 0 0).outcome ∧
      attempts (registerWithCore env ctx a retries fuel).events
        = attempts (registerLoop env.RegisterAdapter (adapterDescription env) deviceTypes retries
            fuel 0 0).events ∧
      sleeps (registerWithCore env ctx a retries fuel).events
        = sleeps (registerLoop env.RegisterAdapter (adapterDescription env) deviceTypes retries
            fuel 0 0).events ∧
      (registerWithCore env ctx a retries fuel).count
        = (registerLoop env.RegisterAdapter (adapterDescription env) deviceTypes retries
            fuel 0 0).count := by
  unfold registerWithCore
  generalize registerLoop env.RegisterAdapter (adapterDescription env) deviceTypes retries
    fuel 0 0 = L
  obtain ⟨o, ev, c⟩ := L
  cases o <;> cases hp : ctx.probe <;>
    simp [UpdateStatusFromContext, attempts_append, sleeps_append, attempts, sleeps]

/-- The result of `startInterContainerProxy` in terms of its loop. -/
theorem startInterContainerProxy_loop (env : Env) (ctx : Context) (a : Adapter) (retries : Int)
    (fuel : Nat) :
    (startInterContainerProxy env ctx a retries fuel).outcome
        = (kipLoop env.kipStart retries fuel 0 0).outcome ∧
      attempts (startInterContainerProxy env ctx a retries fuel).events
        = attempts (kipLoop env.kipStart retries fuel 0 0).events ∧
      sleeps (startInterContainerProxy env ctx a retries fuel).events
        = sleeps (kipLoop env.kipStart retries fuel 0 0).events ∧
      (startInterContainerProxy env ctx a retries fuel).count
        = (kipLoop env.kipStart retries fuel 0 0).count := by
  unfold startInterContainerProxy
  generalize kipLoop env.kipStart retries fuel 0 0 = L
  obtain ⟨o, ev, c⟩ := L
  cases o <;> cases hp : ctx.probe <;>
    simp [UpdateStatusFromContext, attempts_append, sleeps_append, attempts, sleeps]

/-- What `registerWithCore` writes on the probe: `register-with-core` is marked
`Running` on the `nil` return and on no other. -/
theorem registerWithCore_marks (env : Env) (ctx : Context) (a : Adapter) (retries : Int)
    (fuel : Nat) :
    ((registerWithCore env ctx a retries fuel).outcome = .succeeded →
        (registerWithCore env ctx a retries fuel).probe
          = ctx.probe.map (fun p => p.UpdateStatus "register-with-core" .Running) ∧
        statusWrites (registerWithCore env ctx a retries fuel).events
          = (match ctx.probe with
            | some _ => [("register-with-core", ServiceStatus.Running)]
            | none => [])) ∧
      ((registerWithCore env ctx a retries fuel).outcome ≠ .succeeded →
        (registerWithCore env ctx a retries fuel).probe = ctx.probe ∧
        statusWrites (registerWithCore env ctx a retries fuel).events = []) := by
  have hsw := statusWrites_registerLoop env.RegisterAdapter (adapterDescription env) deviceTypes
    retries fuel 0 0
  unfold registerWithCore
  generalize registerLoop env.RegisterAdapter (adapterDescription env) deviceTypes retries
    fuel 0 0 = L at hsw ⊢
  obtain ⟨o, ev, c⟩ := L
  simp only at hsw
  cases o <;> cases hp : ctx.probe <;>
    simp [UpdateStatusFromContext, statusWrites_append, statusWrites, hsw]

/-- What `newKVClient` returns: with a `nil` error an interface that wraps a live
client; with the error of a constructor an interface that is not `nil` and wraps a
`nil` pointer; the `nil` interface only for an unsupported kind. -/
theorem newKVClient_client (env : Env) (storeType address : String) (timeout : Int) :
    ((newKVClient env storeType address timeout).2.1 = none →
        ∃ c, (newKVClient env storeType address timeout).1 = .wraps (some c)) ∧
      ((storeType = "consul" ∨ storeType = "etcd") →
        (newKVClient env storeType address timeout).2.1 ≠ none →
        (newKVClient env storeType address timeout).1 = .wraps none) ∧
      ((newKVClient env storeType address timeout).1 = .nilInterface ↔
        (storeType ≠ "consul" ∧ storeType ≠ "etcd")) := by
  unfold newKVClient
  by_cases h1 : storeType = "consul"
  · cases env.NewConsulClient address timeout <;> simp [h1]
  · by_cases h2 : storeType = "etcd"
    · cases env.NewEtcdClient address timeout <;> simp [h1, h2]
    · simp [h1, h2]

/-- The method `setKVClient` writes no status. -/
theorem setKVClient_writes (env : Env) (a : Adapter) :
    statusWrites (setKVClient env a).2.2 = [] := by
  have h : ∀ t addr tm, statusWrites (newKVClient env t addr tm).2.2 = [] := by
    intro t addr tm
    unfold newKVClient
    split_ifs
    · cases env.NewConsulClient addr tm <;> simp [statusWrites]
    · cases env.NewEtcdClient addr tm <;> simp [statusWrites]
    · simp [statusWrites]
  unfold setKVClient
  simp only []
  split <;> simp [statusWrites_append, statusWrites, h]

/-- What `startInterContainerProxy` writes on the probe: `container-proxy` is marked
`Running` when the loop succeeds and on no other outcome. -/
theorem startInterContainerProxy_marks (env : Env) (ctx : Context) (a : Adapter) (retries : Int)
    (fuel : Nat) :
    (startInterContainerProxy env ctx a retries fuel).probe
        = (if (startInterContainerProxy env ctx a retries fuel).outcome = .succeeded then
            ctx.probe.map (fun p => p.UpdateStatus "container-proxy" .Running)
          else ctx.probe) ∧
      statusWrites (startInterContainerProxy env ctx a retries fuel).events
        = (if (startInterContainerProxy env ctx a retries fuel).outcome = .succeeded then
            markWrites ctx.probe "container-proxy"
          else []) := by
  have hsw := statusWrites_kipLoop env.kipStart retries fuel 0 0
  unfold startInterContainerProxy
  generalize kipLoop env.kipStart retries fuel 0 0 = L at hsw ⊢
  obtain ⟨o, ev, c⟩ := L
  simp only at hsw
  cases o <;> cases hp : ctx.probe <;>
    simp [UpdateStatusFromContext, statusWrites_append, statusWrites, hsw, markWrites]

/-- What `registerWithCore` writes on the probe, by outcome of its loop. -/
theorem registerWithCore_writes (env : Env) (ctx : Context) (a : Adapter) (retries : Int)
    (fuel : Nat) :
    (registerWithCore env ctx a retries fuel).probe
        = (if (registerWithCore env ctx a retries fuel).outcome = .succeeded then
            ctx.probe.map (fun p => p.UpdateStatus "register-with-core" .Running)
          else ctx.probe) ∧
      statusWrites (registerWithCore env ctx a retries fuel).events
        = (if (registerWithCore env ctx a retries fuel).outcome = .succeeded then
            markWrites ctx.probe "register-with-core"
          else []) := by
  obtain ⟨m1, m2⟩ := registerWithCore_marks env ctx a retries fuel
  by_cases h : (registerWithCore env ctx a retries fuel).outcome = .succeeded
  · rw [if_pos h, if_pos h, (m1 h).1, (m1 h).2]
    cases ctx.probe <;> simp [markWrites]
  · rw [if_neg h, if_neg h, (m2 h).1, (m2 h).2]
    simp

/-- What `setupRequestHandler` writes on the probe: `core-request-handler` is marked
`Running` when the subscription succeeds. -/
theorem setupRequestHandler_marks (env : Env) (ctx : Context) (a : Adapter) (id : String)
    (ia : Option SimulatedONU) (cp : Option CoreProxy) :
    (setupRequestHandler env ctx a id ia cp).2.1
        = (if (setupRequestHandler env ctx a id ia cp).1 = none then
            ctx.probe.map (fun p => p.UpdateStatus "core-request-handler" .Running)
          else ctx.probe) ∧
      statusWrites (setupRequestHandler env ctx a id ia cp).2.2
        = (if (setupRequestHandler env ctx a id ia cp).1 = none then
            markWrites ctx.probe "core-request-handler"
          else []) := by
  unfold setupRequestHandler
  cases env.SubscribeWithRequestHandlerInterface <;> cases hp : ctx.probe <;>
    simp [UpdateStatusFromContext, statusWrites, markWrites]

/-- The method `startSimulatedONU` writes no status. -/
theorem startSimulatedONU_writes (env : Env) (a : Adapter) (kip : Option InterContainerProxy)
    (cp : Option CoreProxy) : statusWrites (startSimulatedONU env a kip cp).2.2 = [] := by
  unfold startSimulatedONU
  cases env.simulatedONUStart <;> simp [statusWrites]

/-- The call `newKafkaClient("sarama", host, port)` of `start` always gives a client. -/
theorem newKafkaClient_sarama (host : String) (port : Int) :
    newKafkaClient "sarama" host port
      = (some { host := host, port := port, producerReturnOnErrors := true,
                producerReturnOnSuccess := true, producerMaxRetries := 6,
                producerRetryBackoffMs := 30 }, none, [.newSaramaClient host port]) := by
  simp [newKafkaClient]

/-- The error of `setupRequestHandler` is the error of the subscription. -/
theorem setupRequestHandler_err (env : Env) (ctx : Context) (a : Adapter) (id : String)
    (ia : Option SimulatedONU) (cp : Option CoreProxy) :
    (setupRequestHandler env ctx a id ia cp).1 = env.SubscribeWithRequestHandlerInterface := by
  unfold setupRequestHandler
  cases env.SubscribeWithRequestHandlerInterface <;> simp

/-- The method `startSimulatedONU` ends in `log.Fatalw` exactly when `Start` fails. -/
theorem startSimulatedONU_fatal (env : Env) (a : Adapter) (kip : Option InterContainerProxy)
    (cp : Option CoreProxy) :
    (startSimulatedONU env a kip cp).2.1
      = env.simulatedONUStart.map (fun _ => "error-starting-messaging-proxy") := by
  unfold startSimulatedONU
  cases env.simulatedONUStart <;> simp

/-- The status writes of `start` are an initial part of `runningWrites`, the probe
afterwards is the registered probe with these writes applied, and without a probe
nothing is written. -/
theorem start_writes (env : Env) (ctx : Context) (a : Adapter) (fuel : Nat) :
    statusWrites (start env ctx a fuel).events <+: runningWrites ∧
      (start env ctx a fuel).probe = ctx.probe.map (fun p =>
        replayWrites (p.RegisterService serviceNames)
          (statusWrites (start env ctx a fuel).events)) ∧
      (ctx.probe = none → statusWrites (start env ctx a fuel).events = []) := by
  unfold start
  simp only [newKafkaClient_sarama, (startInterContainerProxy_loop _ _ _ _ _).1,
    (registerWithCore_loop _ _ _ _ _).1, setupRequestHandler_err, startSimulatedONU_fatal]
  split
  · cases hp : ctx.probe <;>
      simp [*, statusWrites_append, statusWrites, setKVClient_writes, startSimulatedONU_writes,
        replayWrites, (startInterContainerProxy_marks _ _ _ _ _).1,
        (startInterContainerProxy_marks _ _ _ _ _).2, (registerWithCore_writes _ _ _ _ _).1,
        (registerWithCore_writes _ _ _ _ _).2, (setupRequestHandler_marks _ _ _ _ _ _).1,
        (setupRequestHandler_marks _ _ _ _ _ _).2, (startInterContainerProxy_loop _ _ _ _ _).1,
        (registerWithCore_loop _ _ _ _ _).1, setupRequestHandler_err,
        updateRunning, runningWrites, markWrites, List.prefix_cons_inj]
  · split
    · cases hp : ctx.probe <;>
      simp [*, statusWrites_append, statusWrites, setKVClient_writes, startSimulatedONU_writes,
        replayWrites, (startInterContainerProxy_marks _ _ _ _ _).1,
        (startInterContainerProxy_marks _ _ _ _ _).2, (registerWithCore_writes _ _ _ _ _).1,
        (registerWithCore_writes _ _ _ _ _).2, (setupRequestHandler_marks _ _ _ _ _ _).1,
        (setupRequestHandler_marks _ _ _ _ _ _).2, (startInterContainerProxy_loop _ _ _ _ _).1,
        (registerWithCore_loop _ _ _ _ _).1, setupRequestHandler_err,
        updateRunning, runningWrites, markWrites, List.prefix_cons_inj]
    · cases hp : ctx.probe <;>
      simp [*, statusWrites_append, statusWrites, setKVClient_writes, startSimulatedONU_writes,
        replayWrites, (startInterContainerProxy_marks _ _ _ _ _).1,
        (startInterContainerProxy_marks _ _ _ _ _).2, (registerWithCore_writes _ _ _ _ _).1,
        (registerWithCore_writes _ _ _ _ _).2, (setupRequestHandler_marks _ _ _ _ _ _).1,
        (setupRequestHandler_marks _ _ _ _ _ _).2, (startInterContainerProxy_loop _ _ _ _ _).1,
        (registerWithCore_loop _ _ _ _ _).1, setupRequestHandler_err,
        updateRunning, runningWrites, markWrites, List.prefix_cons_inj]
    · split
      · cases hp : ctx.probe <;>
      simp [*, statusWrites_append, statusWrites, setKVClient_writes, startSimulatedONU_writes,
        replayWrites, (startInterContainerProxy_marks _ _ _ _ _).1,
        (startInterContainerProxy_marks _ _ _ _ _).2, (registerWithCore_writes _ _ _ _ _).1,
        (registerWithCore_writes _ _ _ _ _).2, (setupRequestHandler_marks _ _ _ _ _ _).1,
        (setupRequestHandler_marks _ _ _ _ _ _).2, (startInterContainerProxy_loop _ _ _ _ _).1,
        (registerWithCore_loop _ _ _ _ _).1, setupRequestHandler_err,
        updateRunning, runningWrites, markWrites, List.prefix_cons_inj]
      · split
        · cases hp : ctx.probe <;>
      simp [*, statusWrites_append, statusWrites, setKVClient_writes, startSimulatedONU_writes,
        replayWrites, (startInterContainerProxy_marks _ _ _ _ _).1,
        (startInterContainerProxy_marks _ _ _ _ _).2, (registerWithCore_writes _ _ _ _ _).1,
        (registerWithCore_writes _ _ _ _ _).2, (setupRequestHandler_marks _ _ _ _ _ _).1,
        (setupRequestHandler_marks _ _ _ _ _ _).2, (startInterContainerProxy_loop _ _ _ _ _).1,
        (registerWithCore_loop _ _ _ _ _).1, setupRequestHandler_err,
        updateRunning, runningWrites, markWrites, List.prefix_cons_inj]
        · split
          · cases hp : ctx.probe <;>
      simp [*, statusWrites_append, statusWrites, setKVClient_writes, startSimulatedONU_writes,
        replayWrites, (startInterContainerProxy_marks _ _ _ _ _).1,
        (startInterContainerProxy_marks _ _ _ _ _).2, (registerWithCore_writes _ _ _ _ _).1,
        (registerWithCore_writes _ _ _ _ _).2, (setupRequestHandler_marks _ _ _ _ _ _).1,
        (setupRequestHandler_marks _ _ _ _ _ _).2, (startInterContainerProxy_loop _ _ _ _ _).1,
        (registerWithCore_loop _ _ _ _ _).1, setupRequestHandler_err,
        updateRunning, runningWrites, markWrites, List.prefix_cons_inj]
          · cases hp : ctx.probe <;>
      simp [*, statusWrites_append, statusWrites, setKVClient_writes, startSimulatedONU_writes,
        replayWrites, (startInterContainerProxy_marks _ _ _ _ _).1,
        (startInterContainerProxy_marks _ _ _ _ _).2, (registerWithCore_writes _ _ _ _ _).1,
        (registerWithCore_writes _ _ _ _ _).2, (setupRequestHandler_marks _ _ _ _ _ _).1,
        (setupRequestHandler_marks _ _ _ _ _ _).2, (startInterContainerProxy_loop _ _ _ _ _).1,
        (registerWithCore_loop _ _ _ _ _).1, setupRequestHandler_err,
        updateRunning, runningWrites, markWrites, List.prefix_cons_inj]
          · cases hp : ctx.probe <;>
      simp [*, statusWrites_append, statusWrites, setKVClient_writes, startSimulatedONU_writes,
        replayWrites, (startInterContainerProxy_marks _ _ _ _ _).1,
        (startInterContainerProxy_marks _ _ _ _ _).2, (registerWithCore_writes _ _ _ _ _).1,
        (registerWithCore_writes _ _ _ _ _).2, (setupRequestHandler_marks _ _ _ _ _ _).1,
        (setupRequestHandler_marks _ _ _ _ _ _).2, (startInterContainerProxy_loop _ _ _ _ _).1,
        (registerWithCore_loop _ _ _ _ _).1, setupRequestHandler_err,
        updateRunning, runningWrites, markWrites, List.prefix_cons_inj]

/-- The method `setKVClient` leaves `exitChannel` and `halted` as they are. -/
theorem setKVClient_exitChannel (env : Env) (a : Adapter) :
    (setKVClient env a).1.exitChannel = a.exitChannel ∧
      (setKVClient env a).1.halted = a.halted := by
  unfold setKVClient
  simp only []
  split <;> simp

/-- The method `start` does not touch `exitChannel` or `halted`: an adapter fresh
from `newAdapter` still has an empty `exitChannel` however far `start` has got. -/
theorem start_exitChannel (env : Env) (ctx : Context) (a : Adapter) (fuel : Nat) :
    (start env ctx a fuel).adapter.exitChannel = a.exitChannel ∧
      (start env ctx a fuel).adapter.halted = a.halted := by
  unfold start
  simp only [newKafkaClient_sarama]
  split
  · exact setKVClient_exitChannel env a
  · split
    · exact setKVClient_exitChannel env a
    · exact setKVClient_exitChannel env a
    · split
      · exact setKVClient_exitChannel env a
      · split
        · exact setKVClient_exitChannel env a
        · split <;> exact setKVClient_exitChannel env a

/-- After any run of `start` on an adapter fresh from `newAdapter`, finished or
not, `stop` returns, with `halted` set. -/
theorem stop_after_start (env : Env) (ctx : Context) (cf : AdapterFlags) (fuel : Nat) :
    (stop env (start env ctx (newAdapter cf) fuel).adapter).returned = true ∧
      (stop env (start env ctx (newAdapter cf) fuel).adapter).adapter.halted = true := by
  have h := (start_exitChannel env ctx (newAdapter cf) fuel).1
  generalize (start env ctx (newAdapter cf) fuel).adapter = rw at h
  have h0 : rw.exitChannel = [] := by rw [h]; rfl
  obtain ⟨i, cfg, ia, kc, kv, kip, cp, hl, ch, rc⟩ := rw
  simp only at h0
  subst h0
  cases kv <;> cases hr : env.ReleaseAllReservations <;> simp [stop, exitChannelCap, hr]

/-! ## Retry budgets -/

/-- C1, as stated, fails: with `retries = 1` and every attempt failing,
`registerWithCore` and `startInterContainerProxy` both return the error after two
attempts and one sleep, and for no number of iterations have they returned after
one attempt. -/
theorem budget_as_retries_counterexample :
    (registerWithCore downEnv probeCtx (newAdapter (sampleFlags "etcd")) 1 5).outcome
        = .failed "core-down" ∧
      attempts (registerWithCore downEnv probeCtx (newAdapter (sampleFlags "etcd")) 1 5).events
        = 2 ∧
      sleeps (registerWithCore downEnv probeCtx (newAdapter (sampleFlags "etcd")) 1 5).events
        = 1 ∧
      (startInterContainerProxy downEnv probeCtx (newAdapter (sampleFlags "etcd")) 1 5).outcome
        = .failed "kafka-down" ∧
      attempts
        (startInterContainerProxy downEnv probeCtx (newAdapter (sampleFlags "etcd")) 1 5).events
        = 2 ∧
      ¬ (∃ fuel err,
          (registerWithCore downEnv probeCtx (newAdapter (sampleFlags "etcd")) 1 fuel).outcome
            = .failed err ∧
          attempts
            (registerWithCore downEnv probeCtx (newAdapter (sampleFlags "etcd")) 1 fuel).events
            = 1) := by
  refine ⟨by decide, by decide, by decide, by decide, by decide, ?_⟩
  rintro ⟨fuel, err, hout, hatt⟩
  match fuel, hout, hatt with
  | 0, hout, _ =>
    have h0 : (registerWithCore downEnv probeCtx (newAdapter (sampleFlags "etcd")) 1 0).outcome
        = .retrying := by decide
    rw [h0] at hout
    cases hout
  | 1, hout, _ =>
    have h1 : (registerWithCore downEnv probeCtx (newAdapter (sampleFlags "etcd")) 1 1).outcome
        = .retrying := by decide
    rw [h1] at hout
    cases hout
  | f + 2, _, hatt =>
    have h := registerLoop_exhausts downEnv.RegisterAdapter (adapterDescription downEnv)
      deviceTypes 1 (by decide) (by decide) (f + 2) "core-down"
      (fun j _ => by simp [downEnv, sampleEnv]) (by simp [downEnv, sampleEnv])
      (by simp [exhaustionPoint])
    rw [(registerWithCore_loop _ _ _ _ _).2.1, h.2.1] at hatt
    simp [exhaustionPoint] at hatt

/-- C1, amended: with `maxAttempts - 1` passed as `retries` (for `maxAttempts >= 1`
within the range of `int`) and a `RegisterAdapter` that fails on every attempt,
`registerWithCore` returns, once its loop is given `maxAttempts` iterations, the
error of its last attempt after exactly `maxAttempts` attempts and
`maxAttempts - 1` sleeps; `startInterContainerProxy` does the same with a failing
`kip.Start()` for `maxAttempts <= 2`. -/
theorem attempts_of_retry_budget (env : Env) (ctx : Context) (a : Adapter)
    (maxAttempts fuel : Nat) (h1 : 1 ≤ maxAttempts) (hmax : (maxAttempts : Int) - 1 ≤ maxInt)
    (hfuel : maxAttempts ≤ fuel) :
    ((∀ k, env.RegisterAdapter k ≠ none) →
      ∃ err, env.RegisterAdapter (maxAttempts - 1) = some err ∧
        (registerWithCore env ctx a ((maxAttempts : Int) - 1) fuel).outcome = .failed err ∧
        attempts (registerWithCore env ctx a ((maxAttempts : Int) - 1) fuel).events
          = maxAttempts ∧
        sleeps (registerWithCore env ctx a ((maxAttempts : Int) - 1) fuel).events
          = maxAttempts - 1) ∧
    (maxAttempts ≤ 2 → (∀ k, env.kipStart k ≠ none) →
      ∃ err, env.kipStart (maxAttempts - 1) = some err ∧
        (startInterContainerProxy env ctx a ((maxAttempts : Int) - 1) fuel).outcome
          = .failed err ∧
        attempts (startInterContainerProxy env ctx a ((maxAttempts : Int) - 1) fuel).events
          = maxAttempts ∧
        sleeps (startInterContainerProxy env ctx a ((maxAttempts : Int) - 1) fuel).events
          = maxAttempts - 1) := by
  constructor
  · intro hfail
    obtain ⟨err, herr⟩ := Option.ne_none_iff_exists'.mp (hfail (maxAttempts - 1))
    have hE : exhaustionPoint ((maxAttempts : Int) - 1) = maxAttempts - 1 := by
      unfold exhaustionPoint; split <;> omega
    have h := registerLoop_exhausts env.RegisterAdapter (adapterDescription env) deviceTypes
      ((maxAttempts : Int) - 1) (by unfold minInt; omega) hmax fuel err
      (fun j _ => hfail j) (by rw [hE]; exact herr) (by rw [hE]; omega)
    obtain ⟨w1, w2, w3, _⟩ := registerWithCore_loop env ctx a ((maxAttempts : Int) - 1) fuel
    refine ⟨err, herr, by rw [w1]; exact h.1, ?_, ?_⟩
    · rw [w2, h.2.1, hE]; omega
    · rw [w3, h.2.2.1, hE]
  · intro h2 hfail
    obtain ⟨err, herr⟩ := Option.ne_none_iff_exists'.mp (hfail (maxAttempts - 1))
    have h := kipLoop_exhausts env.kipStart ((maxAttempts : Int) - 1) (maxAttempts - 1) fuel err
      (by omega) (by omega) (fun j _ => hfail j) herr (by omega)
    obtain ⟨w1, w2, w3, _⟩ := startInterContainerProxy_loop env ctx a ((maxAttempts : Int) - 1) fuel
    refine ⟨err, herr, by rw [w1]; exact h.1, ?_, ?_⟩
    · rw [w2, h.2.1]; omega
    · rw [w3, h.2.2]

/-- Witness of `attempts_of_retry_budget`: a budget of three attempts against a
core that is down. -/
theorem attempts_of_retry_budget_witness :
    (1 ≤ 3 ∧ ((3 : Nat) : Int) - 1 ≤ maxInt ∧ 3 ≤ 4) ∧
    (∃ err, downEnv.RegisterAdapter (3 - 1) = some err ∧
        (registerWithCore downEnv probeCtx (newAdapter (sampleFlags "etcd"))
          (((3 : Nat) : Int) - 1) 4).outcome = .failed err ∧
        attempts (registerWithCore downEnv probeCtx (newAdapter (sampleFlags "etcd"))
          (((3 : Nat) : Int) - 1) 4).events = 3 ∧
        sleeps (registerWithCore downEnv probeCtx (newAdapter (sampleFlags "etcd"))
          (((3 : Nat) : Int) - 1) 4).events = 3 - 1) :=
  ⟨⟨by decide, by decide, by decide⟩,
    (attempts_of_retry_budget downEnv probeCtx (newAdapter (sampleFlags "etcd")) 3 4
      (by decide) (by decide) (by decide)).1 (fun k => by simp [downEnv, sampleEnv])⟩

/-! ## Non-positive retry budgets -/

/-- C2, as stated, fails at zero: with `retries = 0` and every attempt failing,
`registerWithCore` and `startInterContainerProxy` have both returned the error
after one failed attempt and no sleep. -/
theorem zero_retries_counterexample :
    (registerWithCore downEnv probeCtx (newAdapter (sampleFlags "etcd")) 0 1).outcome
        = .failed "core-down" ∧
      attempts (registerWithCore downEnv probeCtx (newAdapter (sampleFlags "etcd")) 0 1).events
        = 1 ∧
      (startInterContainerProxy downEnv probeCtx (newAdapter (sampleFlags "etcd")) 0 1).outcome
        = .failed "kafka-down" ∧
      attempts
        (startInterContainerProxy downEnv probeCtx (newAdapter (sampleFlags "etcd")) 0 1).events
        = 1 := by
  refine ⟨by decide, by decide, by decide, by decide⟩

/-- C2, amended: for every negative `retries` (a Go `int`), `startInterContainerProxy`
never returns an error, whatever `kip.Start()` does and however many iterations its
loop is given, and with a `kip.Start()` that fails on every attempt it is still
retrying after any number of attempts; `registerWithCore` returns no error within
its first `2^64 + retries` iterations (so within its first `2^63`), and with a
`RegisterAdapter` that fails on every attempt it is still retrying after every such
number of attempts. -/
theorem negative_retries_no_exhaustion (env : Env) (ctx : Context) (a : Adapter)
    (retries : Int) (fuel : Nat) (hneg : retries < 0) (hmin : minInt ≤ retries) :
    (∀ err, (startInterContainerProxy env ctx a retries fuel).outcome ≠ .failed err) ∧
    ((∀ k, env.kipStart k ≠ none) →
      (startInterContainerProxy env ctx a retries fuel).outcome = .retrying ∧
      attempts (startInterContainerProxy env ctx a retries fuel).events = fuel) ∧
    ((fuel : Int) ≤ 18446744073709551616 + retries →
      ∀ err, (registerWithCore env ctx a retries fuel).outcome ≠ .failed err) ∧
    ((fuel : Int) ≤ 18446744073709551616 + retries → (∀ k, env.RegisterAdapter k ≠ none) →
      (registerWithCore env ctx a retries fuel).outcome = .retrying ∧
      attempts (registerWithCore env ctx a retries fuel).events = fuel) := by
  have hmaxr : retries ≤ maxInt := by unfold maxInt; omega
  have hE : (fuel : Int) ≤ 18446744073709551616 + retries → fuel ≤ exhaustionPoint retries := by
    intro h; unfold exhaustionPoint minInt at *; split <;> omega
  obtain ⟨k1, k2, _, _⟩ := startInterContainerProxy_loop env ctx a retries fuel
  obtain ⟨w1, w2, _, _⟩ := registerWithCore_loop env ctx a retries fuel
  refine ⟨?_, ?_, ?_, ?_⟩
  · intro err
    rw [k1]
    exact kipLoop_never_fails env.kipStart retries hneg fuel 0 0 (by decide) err
  · intro hfail
    have h := kipLoop_retrying env.kipStart retries fuel (fun j _ => hfail j)
      (Or.inl (by omega)) (Or.inl (by omega))
    exact ⟨by rw [k1]; exact h.1, by rw [k2]; exact h.2.1⟩
  · intro hf err
    rw [w1]
    exact registerLoop_no_failure env.RegisterAdapter (adapterDescription env) deviceTypes retries
      fuel 0 0 (fun j hj => exhaustionPoint_ne retries hmin hmaxr j (by have := hE hf; omega))
      (by decide) err
  · intro hf hfail
    have h := registerLoop_retrying env.RegisterAdapter (adapterDescription env) deviceTypes
      retries hmin hmaxr fuel (fun j _ => hfail j) (hE hf)
    exact ⟨by rw [w1]; exact h.1, by rw [w2]; exact h.2.1⟩

/-- Witness of `negative_retries_no_exhaustion`: `retries = -1`, as `start` passes it,
against collaborators that are down, after seven iterations. -/
theorem negative_retries_no_exhaustion_witness :
    ((-1 : Int) < 0 ∧ minInt ≤ -1) ∧
    ((startInterContainerProxy downEnv probeCtx (newAdapter (sampleFlags "etcd")) (-1)
        7).outcome = .retrying ∧
      attempts (startInterContainerProxy downEnv probeCtx (newAdapter (sampleFlags "etcd")) (-1)
        7).events = 7) ∧
    ((registerWithCore downEnv probeCtx (newAdapter (sampleFlags "etcd")) (-1) 7).outcome
        = .retrying ∧
      attempts (registerWithCore downEnv probeCtx (newAdapter (sampleFlags "etcd")) (-1)
        7).events = 7) :=
  ⟨⟨by decide, by decide⟩,
    (negative_retries_no_exhaustion downEnv probeCtx (newAdapter (sampleFlags "etcd")) (-1) 7
      (by decide) (by decide)).2.1 (fun k => by simp [downEnv, sampleEnv]),
    (negative_retries_no_exhaustion downEnv probeCtx (newAdapter (sampleFlags "etcd")) (-1) 7
      (by decide) (by decide)).2.2.2 (by decide) (fun k => by simp [downEnv, sampleEnv])⟩

/-! ## Calling `stop` twice -/

/-- C3, as stated, fails: on the adapter that `start` has brought up, the first
`stop` returns after the exit signal, `ReleaseAllReservations` and `Close`; the
second finds `halted` set and the buffer of `exitChannel` full, and does not
return. -/
theorem second_stop_counterexample :
    startedAdapter.halted = false ∧ startedAdapter.exitChannel = [] ∧
      (stop upEnv startedAdapter).returned = true ∧
      (stop upEnv startedAdapter).events
        = [.exitSignal 0, .releaseAllReservations, .kvClose] ∧
      (stop upEnv startedAdapter).adapter.halted = true ∧
      (stop upEnv (stop upEnv startedAdapter).adapter).returned = false := by
  refine ⟨by decide, by decide, by decide, by decide, by decide, by decide⟩

/-- C3, amended: `stop` has no test of `halted`; what it does is the same whether
`halted` is set or not. For every adapter state whose `exitChannel` is empty, as
`newAdapter` builds it, the first `stop` returns with `halted` set, having sent the
exit signal and, when `kvClient` is not `nil`, called `ReleaseAllReservations` and
`Close`; a second `stop` in succession makes no call and leaves the state as the
first left it, but does not return: it stays in the send on the full
`exitChannel`. Over the two calls the cleanup is performed exactly once. -/
theorem stop_twice (env : Env) (rw : Adapter) (hempty : rw.exitChannel = []) :
    (stop env rw).returned = true ∧
      (stop env rw).adapter.halted = true ∧
      cleanupCalls (stop env rw).events
        = (if rw.kvClient.isSome then [.exitSignal 0, .releaseAllReservations, .kvClose]
            else [.exitSignal 0]) ∧
      (stop env (stop env rw).adapter).returned = false ∧
      (stop env (stop env rw).adapter).events = [] ∧
      (stop env (stop env rw).adapter).adapter = (stop env rw).adapter ∧
      cleanupCalls ((stop env rw).events ++ (stop env (stop env rw).adapter).events)
        = cleanupCalls (stop env rw).events ∧
      (∀ b, (stop env { rw with halted := b }).events = (stop env rw).events ∧
        (stop env { rw with halted := b }).returned = (stop env rw).returned ∧
        (stop env { rw with halted := b }).adapter = (stop env rw).adapter) := by
  obtain ⟨i, cfg, ia, kc, kv, kip, cp, h, ch, rc⟩ := rw
  simp only at hempty
  subst hempty
  cases kv <;> cases hr : env.ReleaseAllReservations <;>
    simp [stop, exitChannelCap, hr, cleanupCalls]

/-- Witness of `stop_twice`: the adapter that `start` has brought up. -/
theorem stop_twice_witness :
    startedAdapter.exitChannel = [] ∧
      (stop upEnv startedAdapter).returned = true ∧
      (stop upEnv (stop upEnv startedAdapter).adapter).returned = false ∧
      (stop upEnv (stop upEnv startedAdapter).adapter).events = [] :=
  ⟨by decide, (stop_twice upEnv startedAdapter (by decide)).1,
    (stop_twice upEnv startedAdapter (by decide)).2.2.2.1,
    (stop_twice upEnv startedAdapter (by decide)).2.2.2.2.1⟩

/-! ## Unsupported k/v store kinds -/

/-- C4: for every k/v store kind other than `"consul"` and `"etcd"`, `newKVClient`
returns no client and the error `"unsupported-kv-store"` without calling a
constructor; `setKVClient` leaves `kvClient` `nil` and returns that error; and
`start` ends in `log.Fatal("error-setting-kv-client")` at that step: after the
registration of the service names on the probe, if there is one, its only calls are
the two log calls, so `newKafkaClient` and every later step are not reached. -/
theorem unsupported_kv_store (env : Env) (ctx : Context) (a : Adapter) (fuel : Nat)
    (h1 : a.config.KVStoreType ≠ "consul") (h2 : a.config.KVStoreType ≠ "etcd") :
    (∀ address timeout, newKVClient env a.config.KVStoreType address timeout
        = (.nilInterface, some "unsupported-kv-store", [])) ∧
      (setKVClient env a).1.kvClient = none ∧
      (setKVClient env a).2.1 = some "unsupported-kv-store" ∧
      (start env ctx a fuel).status = .fatal "error-setting-kv-client" ∧
      (start env ctx a fuel).adapter.kvClient = none ∧
      (start env ctx a fuel).adapter.kafkaClient = a.kafkaClient ∧
      (start env ctx a fuel).events
        = (match ctx.probe with
            | some _ => [Event.registerService serviceNames]
            | none => [])
          ++ [.log "unsupported-kv-store", .logFatal "error-setting-kv-client"] ∧
      Event.newSaramaClient a.config.KafkaAdapterHost a.config.KafkaAdapterPort
        ∉ (start env ctx a fuel).events := by
  have hkv : ∀ address timeout, newKVClient env a.config.KVStoreType address timeout
      = (.nilInterface, some "unsupported-kv-store", []) := by
    intro address timeout
    simp [newKVClient, h1, h2]
  refine ⟨hkv, ?_, ?_, ?_, ?_, ?_, ?_, ?_⟩ <;>
    cases hp : ctx.probe <;> simp [start, setKVClient, hkv, hp]

/-- Witness of `unsupported_kv_store`: the store kind `"mongo"`. -/
theorem unsupported_kv_store_witness :
    ((sampleFlags "mongo").KVStoreType ≠ "consul" ∧ (sampleFlags "mongo").KVStoreType ≠ "etcd") ∧
      (start upEnv probeCtx (newAdapter (sampleFlags "mongo")) 3).status
        = .fatal "error-setting-kv-client" ∧
      (start upEnv probeCtx (newAdapter (sampleFlags "mongo")) 3).adapter.kvClient = none ∧
      Event.newSaramaClient "kafka" 9092
        ∉ (start upEnv probeCtx (newAdapter (sampleFlags "mongo")) 3).events :=
  ⟨⟨by decide, by decide⟩,
    (unsupported_kv_store upEnv probeCtx (newAdapter (sampleFlags "mongo")) 3
      (by decide) (by decide)).2.2.2.1,
    (unsupported_kv_store upEnv probeCtx (newAdapter (sampleFlags "mongo")) 3
      (by decide) (by decide)).2.2.2.2.1,
    (unsupported_kv_store upEnv probeCtx (newAdapter (sampleFlags "mongo")) 3
      (by decide) (by decide)).2.2.2.2.2.2.2⟩

/-! ## Cancellation -/

/-- C5, as stated, fails: with `retries = -1`, a core that is down and a context
cancelled once the first attempt is made, `registerWithCore` and
`startInterContainerProxy` are still retrying after four attempts, and for no
number of iterations does either return the cancellation error. -/
theorem cancellation_not_observed_counterexample :
    cancelledCtx.Err 1 = some "context canceled" ∧
      (registerWithCore downEnv cancelledCtx (newAdapter (sampleFlags "etcd")) (-1) 4).outcome
        = .retrying ∧
      attempts
        (registerWithCore downEnv cancelledCtx (newAdapter (sampleFlags "etcd")) (-1) 4).events
        = 4 ∧
      (startInterContainerProxy downEnv cancelledCtx (newAdapter (sampleFlags "etcd")) (-1)
        4).outcome = .retrying ∧
      attempts
        (startInterContainerProxy downEnv cancelledCtx (newAdapter (sampleFlags "etcd")) (-1)
          4).events = 4 ∧
      ¬ (∃ fuel,
          (registerWithCore downEnv cancelledCtx (newAdapter (sampleFlags "etcd")) (-1)
            fuel).outcome = .failed "context canceled" ∨
          (startInterContainerProxy downEnv cancelledCtx (newAdapter (sampleFlags "etcd")) (-1)
            fuel).outcome = .failed "context canceled") := by
  refine ⟨by decide, by decide, by decide, by decide, by decide, ?_⟩
  rintro ⟨fuel, h | h⟩
  · rw [(registerWithCore_loop _ _ _ _ _).1] at h
    obtain ⟨j, hj⟩ := registerLoop_error_origin _ _ _ _ _ _ _ _ h
    simp [downEnv, sampleEnv] at hj
  · rw [(startInterContainerProxy_loop _ _ _ _ _).1] at h
    obtain ⟨j, hj⟩ := kipLoop_error_origin _ _ _ _ _ _ h
    simp [downEnv, sampleEnv] at hj

/-- C5, amended: the retry loops do not look at the cancellation state of `ctx`.
For every context and every point `c` at which it might be cancelled, the result of
`registerWithCore` and of `startInterContainerProxy` (outcome, calls, counter) is the
one for the context left uncancelled, and an error they return is the error of one
of their attempts; with `retries = -1` and attempts that all fail they are still
retrying after `fuel` attempts (for `registerWithCore`: `fuel < 2^64`), cancelled
or not. -/
theorem retry_loops_ignore_cancellation (env : Env) (ctx : Context) (a : Adapter)
    (retries : Int) (fuel : Nat) (c : Option Nat) :
    registerWithCore env { ctx with cancelAfter := c } a retries fuel
        = registerWithCore env { ctx with cancelAfter := none } a retries fuel ∧
      startInterContainerProxy env { ctx with cancelAfter := c } a retries fuel
        = startInterContainerProxy env { ctx with cancelAfter := none } a retries fuel ∧
      (∀ err, (registerWithCore env { ctx with cancelAfter := c } a retries fuel).outcome
          = .failed err → ∃ k, env.RegisterAdapter k = some err) ∧
      (∀ err, (startInterContainerProxy env { ctx with cancelAfter := c } a retries fuel).outcome
          = .failed err → ∃ k, env.kipStart k = some err) ∧
      ((∀ k, env.RegisterAdapter k ≠ none) → fuel < 18446744073709551616 →
        (registerWithCore env { ctx with cancelAfter := c } a (-1) fuel).outcome = .retrying ∧
        attempts (registerWithCore env { ctx with cancelAfter := c } a (-1) fuel).events
          = fuel) ∧
      ((∀ k, env.kipStart k ≠ none) →
        (startInterContainerProxy env { ctx with cancelAfter := c } a (-1) fuel).outcome
          = .retrying ∧
        attempts (startInterContainerProxy env { ctx with cancelAfter := c } a (-1) fuel).events
          = fuel) := by
  refine ⟨rfl, rfl, ?_, ?_, ?_, ?_⟩
  · intro err h
    rw [(registerWithCore_loop _ _ _ _ _).1] at h
    exact registerLoop_error_origin _ _ _ _ _ _ _ _ h
  · intro err h
    rw [(startInterContainerProxy_loop _ _ _ _ _).1] at h
    exact kipLoop_error_origin _ _ _ _ _ _ h
  · intro hfail hf
    have h := registerLoop_retrying env.RegisterAdapter (adapterDescription env) deviceTypes
      (-1) (by decide) (by decide) fuel (fun j _ => hfail j)
      (by unfold exhaustionPoint; split <;> omega)
    obtain ⟨w1, w2, _, _⟩ := registerWithCore_loop env { ctx with cancelAfter := c } a (-1) fuel
    exact ⟨by rw [w1]; exact h.1, by rw [w2]; exact h.2.1⟩
  · intro hfail
    have h := kipLoop_retrying env.kipStart (-1) fuel (fun j _ => hfail j)
      (Or.inl (by omega)) (Or.inl (by omega))
    obtain ⟨k1, k2, _, _⟩ :=
      startInterContainerProxy_loop env { ctx with cancelAfter := c } a (-1) fuel
    exact ⟨by rw [k1]; exact h.1, by rw [k2]; exact h.2.1⟩

/-- Witness of `retry_loops_ignore_cancellation`: a core that is down, a context
cancelled once the first attempt is made, nine iterations. -/
theorem retry_loops_ignore_cancellation_witness :
    (registerWithCore downEnv { probeCtx with cancelAfter := some 1 }
        (newAdapter (sampleFlags "etcd")) (-1) 9).outcome = .retrying ∧
      attempts (registerWithCore downEnv { probeCtx with cancelAfter := some 1 }
        (newAdapter (sampleFlags "etcd")) (-1) 9).events = 9 :=
  (retry_loops_ignore_cancellation downEnv probeCtx (newAdapter (sampleFlags "etcd")) (-1) 9
    (some 1)).2.2.2.2.1 (fun k => by simp [downEnv, sampleEnv]) (by decide)

/-! ## Cleanup in `stop` -/

/-- C6, as stated, fails on a state whose `exitChannel` is full: on the adapter
that `start` has brought up and one `stop` has halted, `kvClient` is constructed
and a further `stop` calls neither `ReleaseAllReservations` nor `Close`. -/
theorem cleanup_skipped_counterexample :
    (stop releaseFailsEnv startedAdapter).adapter.kvClient
        = some ⟨"etcd", "kv:2379", 5⟩ ∧
      (stop releaseFailsEnv startedAdapter).adapter.exitChannel = [0] ∧
      (stop releaseFailsEnv (stop releaseFailsEnv startedAdapter).adapter).events = [] ∧
      cleanupCalls (stop releaseFailsEnv (stop releaseFailsEnv startedAdapter).adapter).events
        ≠ [.exitSignal 0, .releaseAllReservations, .kvClose] := by
  refine ⟨by decide, by decide, by decide, by decide⟩

/-- C6, amended: for every adapter state whose `exitChannel` has room for the exit
signal (every state before a first `stop`), `stop` returns with `halted` set; when
`kvClient` was constructed it calls `ReleaseAllReservations` and then `Close`, also
when `ReleaseAllReservations` returns an error, which is logged and not passed on;
when `kvClient` is `nil` it calls neither. -/
theorem stop_cleanup (env : Env) (rw : Adapter) (hroom : rw.exitChannel.length < exitChannelCap) :
    (stop env rw).returned = true ∧
      (stop env rw).adapter.halted = true ∧
      (∀ c, rw.kvClient = some c →
        cleanupCalls (stop env rw).events
          = [.exitSignal 0, .releaseAllReservations, .kvClose] ∧
        (env.ReleaseAllReservations = none →
          (stop env rw).events = [.exitSignal 0, .releaseAllReservations, .kvClose]) ∧
        (env.ReleaseAllReservations ≠ none →
          (stop env rw).events = [.exitSignal 0, .releaseAllReservations,
            .log "fail-to-release-all-reservations", .kvClose])) ∧
      (rw.kvClient = none → (stop env rw).events = [.exitSignal 0]) := by
  obtain ⟨i, cfg, ia, kc, kv, kip, cp, h, ch, rc⟩ := rw
  simp only at hroom
  cases kv <;> cases hr : env.ReleaseAllReservations <;>
    simp [stop, hroom, hr, cleanupCalls]

/-- Witness of `stop_cleanup`: the adapter that `start` has brought up, stopped while
`ReleaseAllReservations` fails. -/
theorem stop_cleanup_witness :
    startedAdapter.exitChannel.length < exitChannelCap ∧
      (stop releaseFailsEnv startedAdapter).returned = true ∧
      (stop releaseFailsEnv startedAdapter).adapter.halted = true ∧
      (stop releaseFailsEnv startedAdapter).events
        = [.exitSignal 0, .releaseAllReservations, .log "fail-to-release-all-reservations",
            .kvClose] :=
  ⟨by decide, (stop_cleanup releaseFailsEnv startedAdapter (by decide)).1,
    (stop_cleanup releaseFailsEnv startedAdapter (by decide)).2.1,
    ((stop_cleanup releaseFailsEnv startedAdapter (by decide)).2.2.1 ⟨"etcd", "kv:2379", 5⟩
      (by decide)).2.2 (by decide)⟩

/-! ## The registration request -/

/-- C7, as stated, fails: for the configuration with instance id `"onu-7"` and
topic `"onu-topic"` the request sent by `registerWithCore` carries the id
`"simulated_onu_1"` and the endpoint `"simulated_onu"`. -/
theorem payload_counterexample :
    (newAdapter (sampleFlags "etcd")).instanceId = "onu-7" ∧
      (newAdapter (sampleFlags "etcd")).config.Topic = "onu-topic" ∧
      (registerWithCore upEnv probeCtx (newAdapter (sampleFlags "etcd")) (-1) 1).events
        = [.registerAdapter
            { Id := "simulated_onu_1", Vendor := "Open Networking Foundation", Version := "1.0",
              Type_ := "simulated_onu", CurrentReplica := 1, TotalReplicas := 1,
              Endpoint := "simulated_onu" }
            [{ Id := "simulated_onu", Adapter := "simulated_onu" }],
          .updateStatus "register-with-core" .Running] ∧
      (adapterDescription upEnv).Id ≠ (newAdapter (sampleFlags "etcd")).instanceId ∧
      (adapterDescription upEnv).Endpoint ≠ (newAdapter (sampleFlags "etcd")).config.Topic := by
  refine ⟨by decide, by decide, by decide, by decide, by decide⟩

/-- C7, amended: every registration request sent by `registerWithCore` carries the
same constant identity, whatever the configuration: id `"simulated_onu_1"`, vendor
`"Open Networking Foundation"`, type `"simulated_onu"`, replica 1 of 1 and endpoint
`"simulated_onu"`, with the library version and the one device type
`"simulated_onu"`. The configured topic `config.Topic` is the default topic of the
proxy built by `startInterContainerProxy` and the topic `setupRequestHandler`
subscribes on. -/
theorem registration_payload (env : Env) (ctx : Context) (a : Adapter) (retries : Int)
    (fuel : Nat) :
    (∀ d ts, Event.registerAdapter d ts ∈ (registerWithCore env ctx a retries fuel).events →
        d = adapterDescription env ∧ ts = deviceTypes ∧
        d.Id = "simulated_onu_1" ∧ d.Vendor = "Open Networking Foundation" ∧
        d.Version = env.Version ∧ d.Type_ = "simulated_onu" ∧ d.CurrentReplica = 1 ∧
        d.TotalReplicas = 1 ∧ d.Endpoint = "simulated_onu") ∧
      (0 < fuel →
        Event.registerAdapter (adapterDescription env) deviceTypes
          ∈ (registerWithCore env ctx a retries fuel).events) ∧
      (∀ kip, (startInterContainerProxy env ctx a retries fuel).kip = some kip →
        kip.defaultTopic = a.config.Topic) ∧
      Event.newInterContainerProxy a.config.KafkaAdapterHost a.config.KafkaAdapterPort
          a.config.Topic ∈ (startInterContainerProxy env ctx a retries fuel).events ∧
      (∀ id ia cp, Event.subscribe a.config.Topic id
          ∈ (setupRequestHandler env ctx a id ia cp).2.2 ∧
        ∀ topic id2, Event.subscribe topic id2 ∈ (setupRequestHandler env ctx a id ia cp).2.2 →
          topic = a.config.Topic ∧ id2 = id) := by
  refine ⟨?_, ?_, ?_, ?_, ?_⟩
  · intro d ts h
    have hmem : Event.registerAdapter d ts ∈ (registerLoop env.RegisterAdapter
        (adapterDescription env) deviceTypes retries fuel 0 0).events := by
      unfold registerWithCore at h
      generalize registerLoop env.RegisterAdapter (adapterDescription env) deviceTypes retries
        fuel 0 0 = L at h ⊢
      obtain ⟨o, ev, c⟩ := L
      cases o <;> cases hp : ctx.probe <;>
        simpa [UpdateStatusFromContext, hp] using h
    obtain ⟨rfl, rfl⟩ := registerLoop_payload _ _ _ _ _ _ _ _ _ hmem
    simp [adapterDescription]
  · intro hf
    obtain ⟨f, rfl⟩ : ∃ f, fuel = f + 1 := ⟨fuel - 1, by omega⟩
    unfold registerWithCore
    simp only [registerLoop]
    cases env.RegisterAdapter 0 with
    | none => simp
    | some e =>
      by_cases hc : retries = 0
      · simp [hc]
      · simp only [hc, if_false]
        generalize registerLoop env.RegisterAdapter (adapterDescription env) deviceTypes retries
          f (0 + 1) (wrapInt (0 + 1)) = L
        obtain ⟨o, ev, c⟩ := L
        cases o <;> simp
  · intro kip h
    unfold startInterContainerProxy at h
    generalize kipLoop env.kipStart retries fuel 0 0 = L at h
    obtain ⟨o, ev, c⟩ := L
    cases o <;> simp at h
    rw [← h]
  · unfold startInterContainerProxy
    generalize kipLoop env.kipStart retries fuel 0 0 = L
    obtain ⟨o, ev, c⟩ := L
    cases o <;> simp
  · intro id ia cp
    unfold setupRequestHandler
    cases env.SubscribeWithRequestHandlerInterface <;> cases hp : ctx.probe <;>
      simp [UpdateStatusFromContext]

/-- Witness of `registration_payload`: the first request of a registration against
a core that is down. -/
theorem registration_payload_witness :
    Event.registerAdapter (adapterDescription downEnv) deviceTypes
      ∈ (registerWithCore downEnv probeCtx (newAdapter (sampleFlags "etcd")) (-1) 2).events :=
  (registration_payload downEnv probeCtx (newAdapter (sampleFlags "etcd")) (-1) 2).2.1
    (by decide)

/-! ## Health status -/

/-- C8: health status only moves forward in `start`. In every run (whatever the
collaborators return, with or without a probe, however far the retry loops get) the
status writes are an initial part of: `kv-store`, `message-bus`, `container-proxy`,
`core-request-handler`, `register-with-core`, each set to `Running`. So every write
is for one of the five names and sets `Running`, no name is written twice, the
probe is the registered one with these writes applied, each write leaves every
entry that is `Running` at `Running`, and a name that was `Running` on the probe
before `start` is `Running` after it. -/
theorem health_status_forward (env : Env) (ctx : Context) (a : Adapter) (fuel : Nat) :
    statusWrites (start env ctx a fuel).events <+: runningWrites ∧
      (∀ w ∈ statusWrites (start env ctx a fuel).events,
        w.2 = ServiceStatus.Running ∧ w.1 ∈ serviceNames) ∧
      ((statusWrites (start env ctx a fuel).events).map Prod.fst).Nodup ∧
      (start env ctx a fuel).probe = ctx.probe.map (fun p =>
        replayWrites (p.RegisterService serviceNames)
          (statusWrites (start env ctx a fuel).events)) ∧
      (∀ pre w post, statusWrites (start env ctx a fuel).events = pre ++ w :: post →
        ∀ (q : Probe) (name : String), Probe.get q name = some .Running →
          Probe.get (q.UpdateStatus w.1 w.2) name = some .Running ∧
          Probe.get (q.UpdateStatus w.1 w.2) name ≠ some .NotReady) ∧
      (∀ p name, ctx.probe = some p → Probe.get p name = some .Running →
        (start env ctx a fuel).probe.bind (fun q => Probe.get q name) = some .Running) := by
  obtain ⟨hpre, hprobe, _⟩ := start_writes env ctx a fuel
  have hall : ∀ w ∈ statusWrites (start env ctx a fuel).events,
      w.2 = ServiceStatus.Running ∧ w.1 ∈ serviceNames := by
    intro w hw
    have hmem := hpre.subset hw
    simp only [runningWrites, List.mem_cons, List.mem_singleton, List.not_mem_nil, or_false]
      at hmem
    rcases hmem with h | h | h | h | h <;> subst h <;> simp [serviceNames]
  refine ⟨hpre, hall, ?_, hprobe, ?_, ?_⟩
  · have hsub := (hpre.map Prod.fst).sublist
    exact hsub.nodup (by decide)
  · intro pre w post hsplit q name hq
    have hw : w.2 = ServiceStatus.Running := (hall w (by rw [hsplit]; simp)).1
    rw [hw]
    have := Probe.get_UpdateStatus_running q name w.1 hq
    exact ⟨this, by rw [this]; simp⟩
  · intro p name hp hq
    rw [hprobe, hp]
    simp only [Option.map_some', Option.some_bind]
    exact replayWrites_running _ _ name (fun w hw => (hall w hw).1)
      (Probe.get_RegisterService serviceNames p name .Running hq)

/-- Witness of `health_status_forward`: the run of `start` with all collaborators up
makes the five writes, once each. -/
theorem health_status_forward_witness :
    statusWrites (start upEnv probeCtx (newAdapter (sampleFlags "etcd")) 1).events
        = runningWrites ∧
      ((statusWrites (start upEnv probeCtx (newAdapter (sampleFlags "etcd")) 1).events).map
        Prod.fst).Nodup :=
  ⟨by decide,
    (health_status_forward upEnv probeCtx (newAdapter (sampleFlags "etcd")) 1).2.2.1⟩

/-! ## The counter of `startInterContainerProxy` -/

/-- C9: the counter of `startInterContainerProxy` does not accumulate. Whatever
`retries` and `kip.Start()` are, `count` is `0` or `1` and it is `1` as soon as one
failed attempt has been followed by a sleep, however many have. So with
`retries >= 2` and a `kip.Start()` that fails on every attempt the loop is still
retrying after any number of attempts, where `registerWithCore`, with the same
`retries` and a `RegisterAdapter` that fails on every attempt, returns the error
after `retries + 1` attempts. -/
theorem kip_count_does_not_accumulate (env : Env) (ctx : Context) (a : Adapter)
    (retries : Int) (fuel : Nat) :
    ((startInterContainerProxy env ctx a retries fuel).count = 0 ∨
        (startInterContainerProxy env ctx a retries fuel).count = 1) ∧
      (1 ≤ sleeps (startInterContainerProxy env ctx a retries fuel).events →
        (startInterContainerProxy env ctx a retries fuel).count = 1) ∧
      (2 ≤ retries → (∀ k, env.kipStart k ≠ none) →
        (startInterContainerProxy env ctx a retries fuel).outcome = .retrying ∧
        attempts (startInterContainerProxy env ctx a retries fuel).events = fuel ∧
        (startInterContainerProxy env ctx a retries fuel).count = kipCount 0 fuel) ∧
      (2 ≤ retries → retries ≤ maxInt → (∀ k, env.RegisterAdapter k ≠ none) →
        retries < fuel →
        (∃ err, (registerWithCore env ctx a retries fuel).outcome = .failed err) ∧
        (attempts (registerWithCore env ctx a retries fuel).events : Int) = retries + 1 ∧
        (registerWithCore env ctx a retries fuel).count = retries) := by
  obtain ⟨k1, k2, k3, k4⟩ := startInterContainerProxy_loop env ctx a retries fuel
  obtain ⟨w1, w2, _, w4⟩ := registerWithCore_loop env ctx a retries fuel
  have hc := kipLoop_count env.kipStart retries fuel 0 0
  refine ⟨?_, ?_, ?_, ?_⟩
  · rw [k4, hc]; split <;> simp
  · intro hs
    rw [k3] at hs
    rw [k4, hc, if_neg (by omega)]
  · intro h2 hfail
    have h := kipLoop_retrying env.kipStart retries fuel (fun j _ => hfail j)
      (Or.inl (by omega)) (Or.inl (by omega))
    exact ⟨by rw [k1]; exact h.1, by rw [k2]; exact h.2.1, by rw [k4]; exact h.2.2.2⟩
  · intro h2 hmax hfail hf
    have hE : (exhaustionPoint retries : Int) = retries := by
      unfold exhaustionPoint; split <;> omega
    obtain ⟨err, herr⟩ := Option.ne_none_iff_exists'.mp (hfail (exhaustionPoint retries))
    have h := registerLoop_exhausts env.RegisterAdapter (adapterDescription env) deviceTypes
      retries (by unfold minInt; omega) hmax fuel err (fun j _ => hfail j) herr (by omega)
    refine ⟨⟨err, by rw [w1]; exact h.1⟩, ?_, by rw [w4]; exact h.2.2.2⟩
    rw [w2, h.2.1]; push_cast; omega

/-- Witness of `kip_count_does_not_accumulate`: `retries = 2` against collaborators
that are down, after six iterations. -/
theorem kip_count_does_not_accumulate_witness :
    ((startInterContainerProxy downEnv probeCtx (newAdapter (sampleFlags "etcd")) 2 6).outcome
        = .retrying ∧
      attempts
        (startInterContainerProxy downEnv probeCtx (newAdapter (sampleFlags "etcd")) 2 6).events
        = 6 ∧
      (startInterContainerProxy downEnv probeCtx (newAdapter (sampleFlags "etcd")) 2 6).count
        = kipCount 0 6) ∧
    ((∃ err, (registerWithCore downEnv probeCtx (newAdapter (sampleFlags "etcd")) 2 6).outcome
        = .failed err) ∧
      (attempts (registerWithCore downEnv probeCtx (newAdapter (sampleFlags "etcd")) 2
        6).events : Int) = 2 + 1 ∧
      (registerWithCore downEnv probeCtx (newAdapter (sampleFlags "etcd")) 2 6).count = 2) :=
  ⟨(kip_count_does_not_accumulate downEnv probeCtx (newAdapter (sampleFlags "etcd")) 2
      6).2.2.1 (by decide) (fun k => by simp [downEnv, sampleEnv]),
    (kip_count_does_not_accumulate downEnv probeCtx (newAdapter (sampleFlags "etcd")) 2
      6).2.2.2 (by decide) (by decide) (fun k => by simp [downEnv, sampleEnv]) (by decide)⟩

/-! ## Attempts of `registerWithCore` -/

/-- C10: let `retries` be a Go `int`. When it is not negative and `RegisterAdapter`
fails on every attempt, `registerWithCore` returns, once its loop is given more than
`retries` iterations, the error of its last attempt after exactly `retries + 1`
attempts and `retries` sleeps, and writes nothing on the probe. When attempt `k` is
the first to succeed, with `k <= retries + 1` for `retries >= 0` and, for
`retries < 0`, `k` within what the 64-bit counter counts before it comes round to
`retries` (`k <= 2^64 + retries + 1`, more than `2^63` attempts), it returns `nil`
after exactly `k` attempts and `k - 1` sleeps and marks `register-with-core`
`Running` on the probe of the context. -/
theorem registerWithCore_attempts (env : Env) (ctx : Context) (a : Adapter) (retries : Int)
    (fuel : Nat) (hmin : minInt ≤ retries) (hmax : retries ≤ maxInt) :
    (0 ≤ retries → (∀ k, env.RegisterAdapter k ≠ none) → retries < fuel →
      ∃ err, env.RegisterAdapter retries.toNat = some err ∧
        (registerWithCore env ctx a retries fuel).outcome = .failed err ∧
        (attempts (registerWithCore env ctx a retries fuel).events : Int) = retries + 1 ∧
        (sleeps (registerWithCore env ctx a retries fuel).events : Int) = retries ∧
        statusWrites (registerWithCore env ctx a retries fuel).events = [] ∧
        (registerWithCore env ctx a retries fuel).probe = ctx.probe) ∧
    (∀ k : Nat, 1 ≤ k → (∀ j, j + 1 < k → env.RegisterAdapter j ≠ none) →
      env.RegisterAdapter (k - 1) = none →
      (k : Int) ≤ (if 0 ≤ retries then retries + 1 else 18446744073709551616 + retries + 1) →
      k ≤ fuel →
      (registerWithCore env ctx a retries fuel).outcome = .succeeded ∧
        attempts (registerWithCore env ctx a retries fuel).events = k ∧
        sleeps (registerWithCore env ctx a retries fuel).events = k - 1 ∧
        (registerWithCore env ctx a retries fuel).probe
          = ctx.probe.map (fun p => p.UpdateStatus "register-with-core" .Running) ∧
        (∀ p, ctx.probe = some p →
          statusWrites (registerWithCore env ctx a retries fuel).events
            = [("register-with-core", ServiceStatus.Running)] ∧
          ((registerWithCore env ctx a retries fuel).probe.bind
            (fun q => Probe.get q "register-with-core")) = some ServiceStatus.Running)) := by
  obtain ⟨w1, w2, w3, _⟩ := registerWithCore_loop env ctx a retries fuel
  obtain ⟨m1, m2⟩ := registerWithCore_marks env ctx a retries fuel
  constructor
  · intro h0 hfail hf
    have hE : exhaustionPoint retries = retries.toNat := by
      unfold exhaustionPoint; split <;> omega
    obtain ⟨err, herr⟩ := Option.ne_none_iff_exists'.mp (hfail retries.toNat)
    have h := registerLoop_exhausts env.RegisterAdapter (adapterDescription env) deviceTypes
      retries hmin hmax fuel err (fun j _ => hfail j) (by rw [hE]; exact herr)
      (by rw [hE]; omega)
    have hout : (registerWithCore env ctx a retries fuel).outcome = .failed err := by
      rw [w1]; exact h.1
    have hm := m2 (by rw [hout]; simp)
    refine ⟨err, herr, hout, ?_, ?_, hm.2, hm.1⟩
    · rw [w2, h.2.1, hE]; push_cast; omega
    · rw [w3, h.2.2.1, hE]; omega
  · intro k hk hfail hok hbound hf
    have hE : k - 1 ≤ exhaustionPoint retries := by
      unfold exhaustionPoint
      unfold minInt at hmin
      by_cases h0 : 0 ≤ retries
      · simp only [h0, if_true] at hbound ⊢; omega
      · simp only [h0, if_false] at hbound ⊢; omega
    have h := registerLoop_succeeds env.RegisterAdapter (adapterDescription env) deviceTypes
      retries hmin hmax (k - 1) fuel (fun j hj => hfail j (by omega)) hok hE (by omega)
    have hout : (registerWithCore env ctx a retries fuel).outcome = .succeeded := by
      rw [w1]; exact h.1
    have hm := m1 hout
    refine ⟨hout, by rw [w2, h.2.1]; omega, by rw [w3, h.2.2], hm.1, ?_⟩
    intro p hp
    rw [hm.1, hm.2, hp]
    simp [Probe.get_UpdateStatus]

/-- Witness of `registerWithCore_attempts`: `retries = 2`, a core that is down (three
attempts, then the error) and a core that answers the third attempt. -/
theorem registerWithCore_attempts_witness :
    (minInt ≤ 2 ∧ (2 : Int) ≤ maxInt) ∧
    (∃ err, downEnv.RegisterAdapter (2 : Int).toNat = some err ∧
      (registerWithCore downEnv probeCtx (newAdapter (sampleFlags "etcd")) 2 5).outcome
        = .failed err ∧
      (attempts (registerWithCore downEnv probeCtx (newAdapter (sampleFlags "etcd")) 2
        5).events : Int) = 2 + 1 ∧
      (sleeps (registerWithCore downEnv probeCtx (newAdapter (sampleFlags "etcd")) 2
        5).events : Int) = 2 ∧
      statusWrites (registerWithCore downEnv probeCtx (newAdapter (sampleFlags "etcd")) 2
        5).events = [] ∧
      (registerWithCore downEnv probeCtx (newAdapter (sampleFlags "etcd")) 2 5).probe
        = probeCtx.probe) ∧
    ((registerWithCore flakyEnv probeCtx (newAdapter (sampleFlags "etcd")) 2 5).outcome
        = .succeeded ∧
      attempts (registerWithCore flakyEnv probeCtx (newAdapter (sampleFlags "etcd")) 2
        5).events = 3 ∧
      sleeps (registerWithCore flakyEnv probeCtx (newAdapter (sampleFlags "etcd")) 2
        5).events = 3 - 1) :=
  ⟨⟨by decide, by decide⟩,
    (registerWithCore_attempts downEnv probeCtx (newAdapter (sampleFlags "etcd")) 2 5
      (by decide) (by decide)).1 (by decide) (fun k => by simp [downEnv, sampleEnv])
      (by decide),
    let h := (registerWithCore_attempts flakyEnv probeCtx (newAdapter (sampleFlags "etcd")) 2 5
      (by decide) (by decide)).2 3 (by decide)
      (fun j hj => by
        have hj2 : j < 2 := by omega
        simp [flakyEnv, sampleEnv, hj2])
      (by simp [flakyEnv, sampleEnv]) (by decide) (by decide)
    ⟨h.1, h.2.1, h.2.2.1⟩⟩

end SimulatedOnu
